import Mathlib

/-!
Verification development for the klik-api wallet-ownership claim subsystem.

The definitions below are a shallow embedding of the JavaScript sources:

* `src/utils/solanaSignature.js` — address validation, message builders
* `src/services/memoSender.js` — `estimateBatchCost`
* `src/middleware/claimRateLimit.js` — `detectClaimAbuse`, `recordFailedClaimAttempt`
* `src/routes/claim.js` — check / nonce / verify / opt-out handlers
* `src/crons/orphanTransition.js` — `processOrphanTransitions`
* `src/crons/claimNotifications.js` — `processNotifications`

Machine numbers are modelled as `Nat`, `Int` and `Rat` (exact where the
JavaScript values are exact doubles; the one place rounding matters,
`toFixed`, is modelled explicitly).  The document store and the key-value
cache are modelled as association lists with the uniqueness guarantees the
storage engine enforces (Mongo `_id` uniqueness).
-/

namespace Klik

/-! ## Base58 and address validation (src/utils/solanaSignature.js) -/

/-- The base-58 alphabet used by `bs58`, i.e. the character class
`[1-9A-HJ-NP-Za-km-z]` of the validation regex: digits and letters
excluding `0`, `O`, `I` and `l`. -/
def BASE58_ALPHABET : List Char :=
  "123456789ABCDEFGHJKLMNPQRSTUVWXYZabcdefghijkmnopqrstuvwxyz".toList

/-- Digit value of a base-58 character, `none` when the character is not in
the alphabet. -/
def b58DigitOf (c : Char) : Option Nat :=
  BASE58_ALPHABET.findIdx? (fun d => d == c)

/-- Numeric value of a base-58 digit string (leading `1` digits contribute
zero, as in `bs58`). -/
def b58DecodeNat (cs : List Char) : Option Nat :=
  cs.foldl (fun acc c =>
    match acc, b58DigitOf c with
    | some a, some d => some (a * 58 + d)
    | _, _ => none) (some 0)

/-- Fuel-driven big-endian expansion helper; the fuel only has to
dominate the number of base-256 digits. -/
def natToBytesBEAux : Nat → Nat → List Nat
  | 0, _ => []
  | fuel + 1, n => if n = 0 then [] else natToBytesBEAux fuel (n / 256) ++ [n % 256]

/-- Big-endian byte expansion of a natural number, empty for zero
(`bs58` represents the value part this way; leading zero bytes are carried
separately as leading `1` characters). -/
def natToBytesBE (n : Nat) : List Nat :=
  natToBytesBEAux n n

/-- Fuel-driven base-58 digit expansion helper. -/
def natToB58DigitsAux : Nat → Nat → List Char
  | 0, _ => []
  | fuel + 1, n =>
    if n = 0 then [] else natToB58DigitsAux fuel (n / 58) ++ [BASE58_ALPHABET.getD (n % 58) '1']

/-- Base-58 digit expansion of a natural number, empty for zero. -/
def natToB58Digits (n : Nat) : List Char :=
  natToB58DigitsAux n n

/-- Model of `bs58.decode`: one leading zero byte per leading `1`
character, then the big-endian bytes of the accumulated value; `none` when
some character is outside the alphabet. -/
def b58Decode (s : String) : Option (List Nat) :=
  let cs := s.toList
  let leading := (cs.takeWhile (fun c => c == '1')).length
  match b58DecodeNat cs with
  | none => none
  | some v => some (List.replicate leading 0 ++ natToBytesBE v)

/-- Numeric value of a big-endian byte string. -/
def bytesToNatBE (bs : List Nat) : Nat :=
  bs.foldl (fun acc b => acc * 256 + b) 0

/-- Model of `bs58.encode`: one `1` character per leading zero byte, then
the base-58 digits of the value. -/
def b58Encode (bs : List Nat) : String :=
  let leading := (bs.takeWhile (fun b => b == 0)).length
  String.mk (List.replicate leading '1' ++ natToB58Digits (bytesToNatBE bs))

/-- Model of the external `@solana/web3.js` collaborator
`new PublicKey(string)`: base-58 decode of the string, rejecting (throwing,
modelled as `none`) unless the decoded value is exactly a 32-byte public
key.  `toBase58` on the result is `b58Encode` of these bytes. -/
def publicKeyFromBase58 (s : String) : Option (List Nat) :=
  match b58Decode s with
  | none => none
  | some bs => if bs.length = 32 then some bs else none

/-- Test for membership in the regex character class `[1-9A-HJ-NP-Za-km-z]`. -/
def isBase58Char (c : Char) : Bool :=
  BASE58_ALPHABET.contains c

/-- Model of `/^[1-9A-HJ-NP-Za-km-z]{32,44}$/.test(address)`. -/
def matchesBase58Regex (s : String) : Bool :=
  32 ≤ s.length && s.length ≤ 44 && s.toList.all isBase58Char

/-- Model of `isValidSolanaAddress` from `src/utils/solanaSignature.js`.
The argument is `none` for a non-string JavaScript value (the
`typeof address !== 'string'` guard); `!address` additionally rejects the
empty string.  After the regex test the address must construct a
`PublicKey` and round-trip: `pubkey.toBase58() === address`.  The function
is total (the source wraps the constructor in try/catch and never
throws). -/
def isValidSolanaAddress (address : Option String) : Bool :=
  match address with
  | none => false
  | some s =>
    if s.isEmpty then false
    else if !matchesBase58Regex s then false
    else
      match publicKeyFromBase58 s with
      | none => false
      | some pk => b58Encode pk == s

/-- Model of `generateClaimMessage`: the exact newline-joined text the
wallet owner signs to claim an agent. -/
def generateClaimMessage (agentId walletAddress nonce timestamp : String) : String :=
  String.intercalate "\n"
    [s!"Claim OpenClaw Agent #{agentId} for wallet {walletAddress}",
     "",
     s!"Nonce: {nonce}",
     s!"Timestamp: {timestamp}",
     "Domain: klik.cool"]

/-- Model of `generateOptOutMessage`: the exact newline-joined text the
wallet owner signs to opt out. -/
def generateOptOutMessage (walletAddress nonce timestamp : String) : String :=
  String.intercalate "\n"
    [s!"Opt out of OpenClaw for wallet {walletAddress}",
     "",
     "I request permanent deletion of my OpenClaw agent and all associated data.",
     "",
     s!"Nonce: {nonce}",
     s!"Timestamp: {timestamp}",
     "Domain: klik.cool"]

/-! ## Batch cost estimation (src/services/memoSender.js) -/

/-- The fixed per-transaction cost constant `ESTIMATED_LAMPORTS_PER_TX`. -/
def ESTIMATED_LAMPORTS_PER_TX : ℚ := 10000

/-- Model of `Number.prototype.toFixed(digits)` followed by `parseFloat`,
for the non-negative values arising here: round to `digits` decimal places
(half away from zero, which on these inputs agrees with the double
rounding of the source). -/
def jsToFixed (digits : Nat) (q : ℚ) : ℚ :=
  ((⌊q * 10 ^ digits + 1 / 2⌋ : ℤ) : ℚ) / 10 ^ digits

/-- Result record of `estimateBatchCost`. -/
structure BatchCost where
  totalLamports : ℚ
  totalSol : ℚ
  totalUsd : ℚ
  perTxLamports : ℚ
  count : ℚ
deriving DecidableEq, Repr

/-- Model of `estimateBatchCost` from `src/services/memoSender.js`:
`totalLamports = count * ESTIMATED_LAMPORTS_PER_TX`, `totalSol` is the
lamport total divided by `1e9` rounded via `toFixed(6)`, and `totalUsd`
is the unrounded SOL total times 150 rounded via `toFixed(2)`. -/
def estimateBatchCost (count : Nat) : BatchCost :=
  let totalLamports : ℚ := (count : ℚ) * ESTIMATED_LAMPORTS_PER_TX
  let totalSol : ℚ := totalLamports / 1000000000
  let totalUsd : ℚ := totalSol * 150
  { totalLamports := totalLamports
    totalSol := jsToFixed 6 totalSol
    totalUsd := jsToFixed 2 totalUsd
    perTxLamports := ESTIMATED_LAMPORTS_PER_TX
    count := (count : ℚ) }

/-! ## Data model

The document store (Mongo) collections used by the claim subsystem.
Timestamps are milliseconds since the epoch as `Nat`, ObjectIds are `Nat`.
The storage engine enforces `_id` uniqueness, so conditional single-document
updates are modelled as: find a document matching `_id` plus the filter,
and on a match rewrite every document with that `_id` satisfying the
filter (with unique ids this is exactly the single matched document). -/

/-- The `claimStatus` lifecycle values of a wallet agent. -/
inductive ClaimStatus
  | UNCLAIMED
  | CLAIMED
  | ORPHANED
  | ADOPTED
  | OPTED_OUT
deriving DecidableEq, Repr

/-- The `walletAgentData` sub-document of an `Agent` document. -/
structure WalletAgentData where
  sourceWallet : String
  claimStatus : ClaimStatus
  claimDeadline : Option Nat
  claimedAt : Option Nat := none
  claimedBy : Option String := none
  claimSignature : Option String := none
  claimNonce : Option String := none
  orphanedAt : Option Nat := none
  foundingWallet : Bool := false
  foundingRank : Option Nat := none
deriving DecidableEq, Repr

/-- An `Agent` document (the fields the claim subsystem reads or writes). -/
structure AgentDoc where
  isWalletAgent : Bool
  walletAgentData : WalletAgentData
  createdAt : Nat
  name : String
  userId : Option Nat := none
deriving DecidableEq, Repr

/-- A `User` document (the fields the claim flow creates or reads). -/
structure UserDoc where
  walletAddress : String
  authMethod : String := "wallet_claim"
  subscriptionTier : String := "starter"
  agentCount : Nat := 1
  createdAt : Nat
deriving DecidableEq, Repr

/-- A `wallet_opt_outs` document: the permanent per-wallet blocklist. -/
structure OptOutDoc where
  walletAddress : String
  optedOutAt : Nat
  agentId : Option Nat := none
  agentName : Option String := none
deriving DecidableEq, Repr

/-- A `wallet_agent_claims` audit document. -/
structure ClaimAuditDoc where
  walletAddress : Option String := none
  agentId : Option Nat := none
  userId : Option Nat := none
  action : String
  result : Option String := none
  reason : Option String := none
  ip : Option String := none
  timestamp : Nat
deriving DecidableEq, Repr

/-- An `orphan_watchlist` document: a user watching an agent for adoption.
A missing `notified` field is modelled as `false` (the cron filters with
`notified: { $ne: true }`). -/
structure WatcherDoc where
  id : Nat
  userId : Nat
  agentId : Nat
  notified : Bool := false
  notifiedAt : Option Nat := none
deriving DecidableEq, Repr

/-- A `wallet_agent_notifications` document.  The collection holds two
shapes of document: claim-reminder records (inserted by the notification
cron with `agentId` stored as a string, a `template` and a `status`) and
watcher notifications (inserted by the orphan cron with `agentId` stored
as an ObjectId and no `status`).  The two id fields keep that type
distinction: a Mongo query on `agentId` of one type does not match
documents whose `agentId` has the other type. -/
structure NotifDoc where
  agentIdStr : Option String := none
  agentIdObj : Option Nat := none
  userId : Option Nat := none
  walletAddress : Option String := none
  channel : Option String := none
  template : Option String := none
  message : Option String := none
  status : Option String := none
  txSignature : Option String := none
  errorMsg : Option String := none
  scheduledDay : Option Nat := none
  actualDay : Option Int := none
  ntype : Option String := none
  read : Option Bool := none
  sentAt : Option Nat := none
  createdAt : Option Nat := none
deriving DecidableEq, Repr

/-- A `Post` document (only the author link matters for opt-out deletion). -/
structure PostDoc where
  id : Nat
  authorId : Nat
deriving DecidableEq, Repr

/-- The document store: the collections touched by the claim subsystem. -/
structure Db where
  agents : List (Nat × AgentDoc)
  users : List (Nat × UserDoc) := []
  optOuts : List OptOutDoc := []
  claimsLog : List ClaimAuditDoc := []
  watchlist : List WatcherDoc := []
  notifications : List NotifDoc := []
  posts : List PostDoc := []
  comments : List Nat := []
  agentMemory : List Nat := []
  agentPersonality : List Nat := []
deriving DecidableEq, Repr

/-- Append an audit document (`wallet_agent_claims.insertOne`). -/
def insertClaimLog (db : Db) (doc : ClaimAuditDoc) : Db :=
  { db with claimsLog := db.claimsLog ++ [doc] }

/-- Append a notification document (`wallet_agent_notifications.insertOne`). -/
def insertNotif (db : Db) (doc : NotifDoc) : Db :=
  { db with notifications := db.notifications ++ [doc] }

/-- Model of `findOneAndUpdate` on the `Agent` collection with a filter of
the form `{_id: id, ...cond}`: returns the updated document
(`returnDocument: after`) when a document matches, `none` otherwise.  The
store enforces `_id` uniqueness, so the rewrite touches exactly the
matched document. -/
def agentFindOneAndUpdate (db : Db) (id : Nat) (cond : AgentDoc → Bool)
    (f : AgentDoc → AgentDoc) : Option AgentDoc × Db :=
  match db.agents.find? (fun e => e.1 == id && cond e.2) with
  | none => (none, db)
  | some (_, a) =>
    (some (f a),
     { db with agents :=
         db.agents.map (fun e => if e.1 == id && cond e.2 then (e.1, f e.2) else e) })

/-- Model of `updateOne` on the `Agent` collection with filter
`{_id: id, ...cond}`: the boolean is `modifiedCount == 1`. -/
def agentUpdateWhere (db : Db) (id : Nat) (cond : AgentDoc → Bool)
    (f : AgentDoc → AgentDoc) : Bool × Db :=
  match db.agents.find? (fun e => e.1 == id && cond e.2) with
  | none => (false, db)
  | some _ =>
    (true,
     { db with agents :=
         db.agents.map (fun e => if e.1 == id && cond e.2 then (e.1, f e.2) else e) })

/-- Model of `Agent.findOne({'walletAgentData.sourceWallet': wallet,
isWalletAgent: true})`. -/
def findAgentByWallet (db : Db) (wallet : String) : Option (Nat × AgentDoc) :=
  db.agents.find? (fun e =>
    e.2.walletAgentData.sourceWallet == wallet && e.2.isWalletAgent)

/-! ## Cache model (Redis)

Nonces live under string keys with an absolute expiry; a read at time
`now` only sees unexpired entries.  Abuse counters live in a separate
integer keyspace (`claim:abuse:*`); their one-hour expiry is recorded but
no claim depends on counter expiry, so reads ignore it. -/

/-- The JSON value stored for a nonce: `{nonce, timestamp, message}`. -/
structure StoredNonce where
  nonce : String
  timestamp : String
  message : String
deriving DecidableEq, Repr

/-- The key-value cache state. -/
structure RedisState where
  nonces : List (String × StoredNonce × Nat) := []
  counters : List (String × Nat) := []
  counterTtls : List (String × Nat) := []
deriving DecidableEq, Repr

/-- `redis.get(key)` on the nonce keyspace at time `now`: `none` when the
key is absent or its TTL has elapsed. -/
def redisGetNonce (r : RedisState) (key : String) (now : Nat) : Option StoredNonce :=
  match r.nonces.find? (fun e => e.1 == key) with
  | none => none
  | some (_, v, expiresAt) => if now < expiresAt then some v else none

/-- `redis.set(key, value, {EX: ttl})` on the nonce keyspace. -/
def redisSetNonce (r : RedisState) (key : String) (v : StoredNonce)
    (now ttl : Nat) : RedisState :=
  { r with nonces := (key, v, now + ttl) :: r.nonces.filter (fun e => e.1 != key) }

/-- `redis.del(key)` on the nonce keyspace. -/
def redisDelNonce (r : RedisState) (key : String) : RedisState :=
  { r with nonces := r.nonces.filter (fun e => e.1 != key) }

/-- `redis.incr(key)` on the counter keyspace: atomic increment, returning
the new value (a missing key counts from zero). -/
def redisIncr (r : RedisState) (key : String) : Nat × RedisState :=
  let n := ((r.counters.find? (fun e => e.1 == key)).map (fun e => e.2)).getD 0 + 1
  (n, { r with counters := (key, n) :: r.counters.filter (fun e => e.1 != key) })

/-- `redis.expire(key, ttl)` on the counter keyspace. -/
def redisExpire (r : RedisState) (key : String) (ttl : Nat) : RedisState :=
  { r with counterTtls := (key, ttl) :: r.counterTtls.filter (fun e => e.1 != key) }

/-- `redis.get(key)` on the counter keyspace. -/
def redisGetCounter (r : RedisState) (key : String) : Option Nat :=
  (r.counters.find? (fun e => e.1 == key)).map (fun e => e.2)

/-- The key `claim:nonce:{agentId}:{wallet}`. -/
def claimNonceKey (agentId : Nat) (wallet : String) : String :=
  s!"claim:nonce:{agentId}:{wallet}"

/-- The key `claim:optout:nonce:{wallet}`. -/
def optOutNonceKey (wallet : String) : String :=
  s!"claim:optout:nonce:{wallet}"

/-- The key `claim:abuse:wallet:{wallet}`. -/
def abuseWalletKey (wallet : String) : String :=
  s!"claim:abuse:wallet:{wallet}"

/-- The key `claim:abuse:ip:{ip}`. -/
def abuseIpKey (ip : String) : String :=
  s!"claim:abuse:ip:{ip}"

/-- The nonce time-to-live `NONCE_TTL_SECONDS` (the handler stores nonces
with `EX: 300`; expiry here is the issue time plus the TTL). -/
def NONCE_TTL_SECONDS : Nat := 300

/-- Model of `recordFailedClaimAttempt` from
`src/middleware/claimRateLimit.js`: increment the per-wallet failure
counter, setting a one-hour expiry when the counter is fresh. -/
def recordFailedClaimAttempt (r : RedisState) (wallet : String) : RedisState :=
  let key := abuseWalletKey wallet
  let step := redisIncr r key
  if step.1 = 1 then redisExpire step.2 key 3600 else step.2

/-! ## Abuse detection middleware (src/middleware/claimRateLimit.js) -/

/-- The Redis client as seen by the middleware: missing / not ready,
reachable but throwing on every operation, or working. -/
inductive RedisClient
  | absent
  | erroring (r : RedisState)
  | ready (r : RedisState)
deriving DecidableEq, Repr

/-- Outcome of `detectClaimAbuse`: pass the request on (`next()`), or
reject with `ABUSE_IP_BLOCKED` / `ABUSE_WALLET_BLOCKED`. -/
inductive AbuseOutcome
  | allowed
  | blockedIp
  | blockedWallet
deriving DecidableEq, Repr

/-- Model of `detectClaimAbuse`.  A missing or not-ready client passes the
request through; a throwing client is caught by the surrounding try/catch
which also calls `next()` (fail open).  Otherwise the per-IP hourly
counter is incremented (expiry set on first use) and the request is
blocked when it exceeds 100; then, when the request names a wallet, the
request is blocked when the per-wallet failure counter is at least 5. -/
def detectClaimAbuse (client : RedisClient) (ip : String) (wallet : Option String) :
    AbuseOutcome × RedisClient :=
  match client with
  | .absent => (.allowed, .absent)
  | .erroring r => (.allowed, .erroring r)
  | .ready r =>
    let step := redisIncr r (abuseIpKey ip)
    let ipCount := step.1
    let r2 := if ipCount = 1 then redisExpire step.2 (abuseIpKey ip) 3600 else step.2
    if 100 < ipCount then (.blockedIp, .ready r2)
    else
      match wallet with
      | some w =>
        match redisGetCounter r2 (abuseWalletKey w) with
        | some m => if 5 ≤ m then (.blockedWallet, .ready r2) else (.allowed, .ready r2)
        | none => (.allowed, .ready r2)
      | none => (.allowed, .ready r2)

/-! ## Eligibility check (GET /api/v1/claim/check) -/

/-- String form of a claim status, as stored in audit rows and responses. -/
def statusString : ClaimStatus → String
  | .UNCLAIMED => "UNCLAIMED"
  | .CLAIMED => "CLAIMED"
  | .ORPHANED => "ORPHANED"
  | .ADOPTED => "ADOPTED"
  | .OPTED_OUT => "OPTED_OUT"

/-- Model of `Math.max(0, Math.ceil((deadline - now) / 86400000))`. -/
def jsCeilDays (deadline now : Nat) : Nat :=
  (max 0 ⌈((deadline : ℚ) - (now : ℚ)) / 86400000⌉).toNat

/-- Response of the eligibility check endpoint (the agent preview fields
not relevant to any claim are omitted). -/
inductive CheckResp
  | badRequest (code : String)
  | ineligible (reason : String)
  | agentInfo (eligible : Bool) (reason : Option String) (claimStatus : ClaimStatus)
      (daysRemaining : Option Nat)
deriving DecidableEq, Repr

/-- Model of `GET /api/v1/claim/check` from `src/routes/claim.js`: reject
missing or invalid wallets, consult the `wallet_opt_outs` blocklist first
(short-circuiting to `OPTED_OUT`), then look the agent up by source
wallet, logging each check. -/
def claimCheck (db : Db) (now : Nat) (ip : String) (wallet : Option String) :
    CheckResp × Db :=
  match wallet with
  | none => (.badRequest "MISSING_WALLET", db)
  | some w =>
    if !isValidSolanaAddress (some w) then (.badRequest "INVALID_WALLET", db)
    else
      match db.optOuts.find? (fun o => o.walletAddress == w) with
      | some _ =>
        let db := insertClaimLog db
          { walletAddress := some w, action := "CHECK", result := some "OPTED_OUT",
            ip := some ip, timestamp := now }
        (.ineligible "OPTED_OUT", db)
      | none =>
        match findAgentByWallet db w with
        | none =>
          let db := insertClaimLog db
            { walletAddress := some w, action := "CHECK", result := some "NO_AGENT",
              ip := some ip, timestamp := now }
          (.ineligible "NO_AGENT", db)
        | some (id, a) =>
          let claimStatus := a.walletAgentData.claimStatus
          let claimDeadline := a.walletAgentData.claimDeadline
          let daysRemaining : Option Nat :=
            match claimDeadline, claimStatus with
            | some d, .UNCLAIMED => some (jsCeilDays d now)
            | _, _ => none
          let db := insertClaimLog db
            { walletAddress := some w, agentId := some id, action := "CHECK",
              result := some (if claimStatus == .UNCLAIMED then "ELIGIBLE"
                              else statusString claimStatus),
              ip := some ip, timestamp := now }
          let eligible := claimStatus == .UNCLAIMED &&
            (match claimDeadline with | none => true | some d => now < d)
          (.agentInfo eligible
            (if eligible then none else some (statusString claimStatus))
            claimStatus daysRemaining, db)

/-! ## Nonce issuance (POST /api/v1/claim/nonce) -/

/-- Response of the claim nonce endpoint. -/
inductive NonceResp
  | missingFields
  | invalidWallet
  | agentNotFound
  | notClaimable (status : ClaimStatus)
  | claimExpired
  | ok (nonce message timestamp : String)
deriving DecidableEq, Repr

/-- Model of `POST /api/v1/claim/nonce`: after validation, require the
agent to belong to the wallet, be `UNCLAIMED` and inside its claim
window, then store `{nonce, timestamp, message}` under
`claim:nonce:{agentId}:{wallet}` with a 300-second expiry.  The
cryptographically random nonce and the ISO timestamp string are inputs
(`freshNonce`, `tsStr`). -/
def claimNonceHandler (db : Db) (r : RedisState) (now : Nat)
    (wallet : String) (agentId : Nat) (freshNonce tsStr : String) :
    NonceResp × RedisState :=
  if wallet == "" then (.missingFields, r)
  else if !isValidSolanaAddress (some wallet) then (.invalidWallet, r)
  else
    match db.agents.find? (fun e =>
        e.1 == agentId && e.2.isWalletAgent &&
        e.2.walletAgentData.sourceWallet == wallet) with
    | none => (.agentNotFound, r)
    | some (_, a) =>
      if a.walletAgentData.claimStatus ≠ .UNCLAIMED then
        (.notClaimable a.walletAgentData.claimStatus, r)
      else
        match a.walletAgentData.claimDeadline with
        | some d =>
          if d ≤ now then (.claimExpired, r)
          else
            let message := generateClaimMessage (toString agentId) wallet freshNonce tsStr
            (.ok freshNonce message tsStr,
             redisSetNonce r (claimNonceKey agentId wallet)
               { nonce := freshNonce, timestamp := tsStr, message := message }
               now NONCE_TTL_SECONDS)
        | none =>
          let message := generateClaimMessage (toString agentId) wallet freshNonce tsStr
          (.ok freshNonce message tsStr,
           redisSetNonce r (claimNonceKey agentId wallet)
             { nonce := freshNonce, timestamp := tsStr, message := message }
             now NONCE_TTL_SECONDS)

/-! ## Claim verification (POST /api/v1/claim/verify) -/

/-- The request body of the verify endpoint. -/
structure VerifyReq where
  wallet : String
  agentId : Nat
  signature : String
  nonce : String
deriving DecidableEq, Repr

/-- Response of the verify endpoint. -/
inductive VerifyResp
  | missingFields
  | invalidWallet
  | nonceExpired
  | nonceMismatch
  | invalidSignature
  | alreadyClaimed
  | success (foundingRank : Nat)
deriving DecidableEq, Repr

/-- The filter of the atomic claim `findOneAndUpdate` beyond `_id`:
`'walletAgentData.sourceWallet': wallet`,
`'walletAgentData.claimStatus': 'UNCLAIMED'`, `isWalletAgent: true`. -/
def casClaimFilter (wallet : String) (a : AgentDoc) : Bool :=
  a.walletAgentData.sourceWallet == wallet &&
  a.walletAgentData.claimStatus == .UNCLAIMED &&
  a.isWalletAgent

/-- The `$set` of the atomic claim update: status `CLAIMED`, stamp
`claimedAt`, `claimSignature`, `claimNonce`, `claimedBy`. -/
def applyClaimSet (now : Nat) (wallet signature nonce : String) (a : AgentDoc) : AgentDoc :=
  { a with walletAgentData :=
      { a.walletAgentData with
        claimStatus := .CLAIMED
        claimedAt := some now
        claimSignature := some signature
        claimNonce := some nonce
        claimedBy := some wallet } }

/-- A fresh ObjectId for a new `User` document. -/
def freshUserId (db : Db) : Nat :=
  db.users.foldl (fun m e => max m e.1) 0 + 1

/-- Model of the find-or-create step for the claiming wallet's user
account. -/
def findOrCreateUser (db : Db) (wallet : String) (now : Nat) : Nat × Db :=
  match db.users.find? (fun e => e.2.walletAddress == wallet) with
  | some (uid, _) => (uid, db)
  | none =>
    let uid := freshUserId db
    (uid, { db with users := db.users ++ [(uid, { walletAddress := wallet, createdAt := now })] })

/-- Model of the founding-rank count: `countDocuments({isWalletAgent,
claimStatus: 'CLAIMED', _id: {$ne: id}})`. -/
def countClaimedExcept (db : Db) (id : Nat) : Nat :=
  (db.agents.filter (fun e =>
    e.2.isWalletAgent && e.2.walletAgentData.claimStatus == .CLAIMED && e.1 != id)).length

/-- The post-transition enrichment of a successful claim: link the agent
to a (possibly new) user, compute the founding rank and stamp it when at
most 5000, delete the nonce (single-use) and log the success.  `db1` is
the store state after the atomic conditional update matched. -/
def verifySuccessPost (db1 : Db) (r : RedisState) (now : Nat) (ip : String)
    (req : VerifyReq) : VerifyResp × Db × RedisState :=
  let created := findOrCreateUser db1 req.wallet now
  let userId := created.1
  let db2 := created.2
  let db3 := (agentUpdateWhere db2 req.agentId (fun _ => true)
    (fun a => { a with userId := some userId })).2
  let previousClaims := countClaimedExcept db3 req.agentId
  let foundingRank := previousClaims + 1
  let db4 :=
    if foundingRank ≤ 5000 then
      (agentUpdateWhere db3 req.agentId (fun _ => true)
        (fun a => { a with walletAgentData :=
          { a.walletAgentData with foundingWallet := true, foundingRank := some foundingRank } })).2
    else db3
  let r2 := redisDelNonce r (claimNonceKey req.agentId req.wallet)
  let db5 := insertClaimLog db4
    { walletAddress := some req.wallet, agentId := some req.agentId,
      userId := some userId, action := "CLAIM_SUCCESS", ip := some ip, timestamp := now }
  (.success foundingRank, db5, r2)

/-- The verify handler from the atomic `findOneAndUpdate` on: on a zero
match the nonce is deleted and the caller receives `ALREADY_CLAIMED`; on
a match the post-transition enrichment runs. -/
def verifyPhase2 (db : Db) (r : RedisState) (now : Nat) (ip : String) (req : VerifyReq) :
    VerifyResp × Db × RedisState :=
  let nonceKey := claimNonceKey req.agentId req.wallet
  let step := agentFindOneAndUpdate db req.agentId (casClaimFilter req.wallet)
    (applyClaimSet now req.wallet req.signature req.nonce)
  match step.1 with
  | none => (.alreadyClaimed, step.2, redisDelNonce r nonceKey)
  | some _ => verifySuccessPost step.2 r now ip req

/-- Model of `POST /api/v1/claim/verify`.  `sigOk wallet message signature`
stands for the external ed25519 check `verifySolanaSignature`.  Field,
nonce and signature failures record a failed attempt on the per-wallet
abuse counter; only then is the atomic claim attempted. -/
def claimVerify (sigOk : String → String → String → Bool) (db : Db) (r : RedisState)
    (now : Nat) (ip : String) (req : VerifyReq) : VerifyResp × Db × RedisState :=
  if req.wallet == "" || req.signature == "" || req.nonce == "" then (.missingFields, db, r)
  else if !isValidSolanaAddress (some req.wallet) then (.invalidWallet, db, r)
  else
    match redisGetNonce r (claimNonceKey req.agentId req.wallet) now with
    | none => (.nonceExpired, db, recordFailedClaimAttempt r req.wallet)
    | some parsed =>
      if parsed.nonce != req.nonce then
        (.nonceMismatch, db, recordFailedClaimAttempt r req.wallet)
      else if !sigOk req.wallet parsed.message req.signature then
        (.invalidSignature,
         insertClaimLog db
           { walletAddress := some req.wallet, agentId := some req.agentId,
             action := "CLAIM_FAILED", reason := some "INVALID_SIGNATURE",
             ip := some ip, timestamp := now },
         recordFailedClaimAttempt r req.wallet)
      else verifyPhase2 db r now ip req

/-- Whether a verify response is the success response. -/
def isSuccessResp : VerifyResp → Bool
  | .success _ => true
  | _ => false

/-- No document of the store can pass the atomic claim gate for this
agent id and wallet (the agent is absent, already non-UNCLAIMED, or owned
by a different source wallet). -/
def noClaimMatch (db : Db) (id : Nat) (w : String) : Prop :=
  ∀ e ∈ db.agents, e.1 = id → casClaimFilter w e.2 = false

/-- Linearization of N concurrent verify calls that all passed their
nonce and signature gates: the storage layer serializes their atomic
`findOneAndUpdate` sections, so the interleaving is equivalent to running
the post-gate portion of each handler in some sequential order. -/
def runVerifyPhase2s (now : Nat) (ip : String) :
    Db → RedisState → List VerifyReq → List VerifyResp × Db × RedisState
  | db, r, [] => ([], db, r)
  | db, r, req :: rest =>
    let out := verifyPhase2 db r now ip req
    let next := runVerifyPhase2s now ip out.2.1 out.2.2 rest
    (out.1 :: next.1, next.2)

/-! ## Opt-out (POST /api/v1/claim/opt-out/nonce and /opt-out) -/

/-- Response of the opt-out nonce endpoint. -/
inductive OptOutNonceResp
  | missingWallet
  | invalidWallet
  | alreadyOptedOut
  | noAgent
  | ok (nonce message timestamp : String)
deriving DecidableEq, Repr

/-- Model of `POST /api/v1/claim/opt-out/nonce`: reject wallets that
already opted out, reject with `NO_AGENT` when the wallet has no agent,
otherwise store an opt-out nonce with a 300-second expiry. -/
def optOutNonceHandler (db : Db) (r : RedisState) (now : Nat)
    (wallet freshNonce tsStr : String) : OptOutNonceResp × RedisState :=
  if wallet == "" then (.missingWallet, r)
  else if !isValidSolanaAddress (some wallet) then (.invalidWallet, r)
  else if (db.optOuts.find? (fun o => o.walletAddress == wallet)).isSome then
    (.alreadyOptedOut, r)
  else
    match findAgentByWallet db wallet with
    | none => (.noAgent, r)
    | some _ =>
      let message := generateOptOutMessage wallet freshNonce tsStr
      (.ok freshNonce message tsStr,
       redisSetNonce r (optOutNonceKey wallet)
         { nonce := freshNonce, timestamp := tsStr, message := message }
         now NONCE_TTL_SECONDS)

/-- Response of the opt-out verify endpoint. -/
inductive OptOutResp
  | missingFields
  | invalidWallet
  | nonceExpired
  | nonceMismatch
  | invalidSignature
  | success
deriving DecidableEq, Repr

/-- One storage effect of the opt-out verify handler, in execution order,
used to state ordering properties of the destructive path. -/
inductive OptOutOp
  | deleteAgentDoc (agentId : Nat)
  | deleteChildRecords (agentId : Nat)
  | insertOptOutRecord (wallet : String)
  | deleteNonceKey (key : String)
  | insertAuditRow
deriving DecidableEq, Repr

/-- Whether an opt-out effect is one of the destructive deletions. -/
def OptOutOp.isDeletion : OptOutOp → Bool
  | .deleteAgentDoc _ => true
  | .deleteChildRecords _ => true
  | _ => false

/-- Model of `POST /api/v1/claim/opt-out`.  After nonce and signature
checks, when an agent exists for the wallet it and all its child records
are deleted permanently; in either case the wallet is then inserted into
the permanent `wallet_opt_outs` blocklist, the nonce is deleted and the
opt-out is logged.  The fourth component is the ordered trace of storage
effects. -/
def optOutVerify (sigOk : String → String → String → Bool) (db : Db) (r : RedisState)
    (now : Nat) (ip : String) (wallet signature nonce : String) :
    OptOutResp × Db × RedisState × List OptOutOp :=
  if wallet == "" || signature == "" || nonce == "" then (.missingFields, db, r, [])
  else if !isValidSolanaAddress (some wallet) then (.invalidWallet, db, r, [])
  else
    match redisGetNonce r (optOutNonceKey wallet) now with
    | none => (.nonceExpired, db, r, [])
    | some parsed =>
      if parsed.nonce != nonce then (.nonceMismatch, db, r, [])
      else if !sigOk wallet parsed.message signature then
        (.invalidSignature,
         insertClaimLog db
           { walletAddress := some wallet, action := "OPT_OUT_FAILED",
             reason := some "INVALID_SIGNATURE", ip := some ip, timestamp := now },
         r, [])
      else
        match findAgentByWallet db wallet with
        | some (id, a) =>
          let db1 := { db with agents := db.agents.filter (fun e => e.1 != id) }
          let db2 := { db1 with
            posts := db1.posts.filter (fun p => p.authorId != id)
            comments := db1.comments.filter (fun c => c != id)
            agentMemory := db1.agentMemory.filter (fun m => m != id)
            agentPersonality := db1.agentPersonality.filter (fun m => m != id)
            watchlist := db1.watchlist.filter (fun w => w.agentId != id)
            notifications := db1.notifications.filter (fun nd => nd.agentIdObj != some id) }
          let db3 := { db2 with optOuts := db2.optOuts ++
            [{ walletAddress := wallet, optedOutAt := now,
               agentId := some id, agentName := some a.name }] }
          let db4 := insertClaimLog db3
            { walletAddress := some wallet, agentId := some id,
              action := "OPT_OUT_SUCCESS", ip := some ip, timestamp := now }
          (.success, db4, redisDelNonce r (optOutNonceKey wallet),
           [.deleteAgentDoc id, .deleteChildRecords id, .insertOptOutRecord wallet,
            .deleteNonceKey (optOutNonceKey wallet), .insertAuditRow])
        | none =>
          let db3 := { db with optOuts := db.optOuts ++
            [{ walletAddress := wallet, optedOutAt := now }] }
          let db4 := insertClaimLog db3
            { walletAddress := some wallet, action := "OPT_OUT_SUCCESS",
              ip := some ip, timestamp := now }
          (.success, db4, redisDelNonce r (optOutNonceKey wallet),
           [.insertOptOutRecord wallet, .deleteNonceKey (optOutNonceKey wallet),
            .insertAuditRow])

/-! ## Orphan transition cron (src/crons/orphanTransition.js) -/

/-- The run summary of `processOrphanTransitions`.  The pure model has no
infrastructure failures, so the per-run error list stays empty. -/
structure OrphanSummary where
  processed : Nat := 0
  transitioned : Nat := 0
  notified : Nat := 0
  errors : List String := []
deriving DecidableEq, Repr

/-- The sweep query: `isWalletAgent: true`, `claimStatus: 'UNCLAIMED'`,
`claimDeadline: {$lte: now}` (a document without a deadline does not
match `$lte`). -/
def orphanEligible (now : Nat) (a : AgentDoc) : Bool :=
  a.isWalletAgent && a.walletAgentData.claimStatus == .UNCLAIMED &&
    (match a.walletAgentData.claimDeadline with
     | some d => decide (d ≤ now)
     | none => false)

/-- The `$set` of the orphan transition. -/
def orphanSet (now : Nat) (a : AgentDoc) : AgentDoc :=
  { a with walletAgentData :=
      { a.walletAgentData with claimStatus := .ORPHANED, orphanedAt := some now } }

/-- Notify one watcher: insert an `AGENT_ORPHANED` notification and flip
the watcher's `notified` flag. -/
def notifyWatcherStep (now agentId : Nat) (agentName : String) (db : Db)
    (w : WatcherDoc) : Db :=
  let db := insertNotif db
    { userId := some w.userId, agentIdObj := some agentId, ntype := some "AGENT_ORPHANED",
      message := some ("Agent \"" ++ agentName ++ "\" is now available for adoption."),
      read := some false, createdAt := some now }
  { db with watchlist := db.watchlist.map (fun w2 =>
      if w2.id == w.id then { w2 with notified := true, notifiedAt := some now } else w2) }

/-- Process one expired agent from the sweep snapshot: conditional
transition gated on `claimStatus: 'UNCLAIMED'`; on a modification, log the
transition and notify every not-yet-notified watcher. -/
def orphanStep (now : Nat) (acc : OrphanSummary × Db) (e : Nat × AgentDoc) :
    OrphanSummary × Db :=
  let upd := agentUpdateWhere acc.2 e.1
    (fun a => a.walletAgentData.claimStatus == .UNCLAIMED) (orphanSet now)
  if upd.1 then
    let db := insertClaimLog upd.2
      { agentId := some e.1, walletAddress := some e.2.walletAgentData.sourceWallet,
        action := "ORPHANED", reason := some "CLAIM_DEADLINE_EXPIRED", timestamp := now }
    let watchers := db.watchlist.filter (fun w => w.agentId == e.1 && !w.notified)
    let db2 := watchers.foldl (notifyWatcherStep now e.1 e.2.name) db
    let s := acc.1
    ({ s with transitioned := s.transitioned + 1, notified := s.notified + watchers.length },
     db2)
  else (acc.1, upd.2)

/-- Model of `processOrphanTransitions`: snapshot all expired unclaimed
wallet agents, then transition each with the conditional update,
tolerating a zero-match as someone else having done it. -/
def processOrphanTransitions (db : Db) (now : Nat) : OrphanSummary × Db :=
  let expired := db.agents.filter (fun e => orphanEligible now e.2)
  expired.foldl (orphanStep now) ({ processed := expired.length }, db)

/-! ## Claim notification cron (src/crons/claimNotifications.js) -/

/-- Result of the external `sendClaimMemo` delivery collaborator. -/
structure MemoResult where
  success : Bool
  signature : Option String := none
  errorMsg : Option String := none
deriving DecidableEq, Repr

/-- One entry of the escalating notification schedule. -/
structure ScheduleEntry where
  daysAfterCreation : Nat
  channel : String
  template : String
deriving DecidableEq, Repr

/-- The `NOTIFICATION_SCHEDULE` constant: day offsets 0, 7, 14, 21, 25,
28, 29 with their templates, all on the on-chain memo channel. -/
def NOTIFICATION_SCHEDULE : List ScheduleEntry :=
  [⟨0, "onchain_memo", "AGENT_CREATED"⟩,
   ⟨7, "onchain_memo", "WEEK_1_UPDATE"⟩,
   ⟨14, "onchain_memo", "HALFWAY_WARNING"⟩,
   ⟨21, "onchain_memo", "NINE_DAYS_LEFT"⟩,
   ⟨25, "onchain_memo", "FIVE_DAYS_LEFT"⟩,
   ⟨28, "onchain_memo", "TWO_DAYS_LEFT"⟩,
   ⟨29, "onchain_memo", "FINAL_DAY"⟩]

/-- The per-run send ceiling `MAX_SENDS_PER_HOUR`. -/
def MAX_SENDS_PER_HOUR : Nat := 500

/-- Model of `getSentNotifications`: the templates of every notification
record for this agent (string-typed `agentId`) whose status is `sent`. -/
def getSentNotifications (db : Db) (agentId : Nat) : List String :=
  (db.notifications.filter (fun nd =>
    nd.agentIdStr == some (toString agentId) && nd.status == some "sent")).filterMap
    (fun nd => nd.template)

/-- Model of `Math.floor((now - createdAt) / 86400000)` over exact
integers (floor division, so a future creation date gives a negative
day count). -/
def daysSinceCreation (now createdAt : Nat) : Int :=
  Int.fdiv ((now : Int) - (createdAt : Int)) 86400000

/-- The run summary of `processNotifications`. -/
structure NotifSummary where
  processed : Nat
  sent : Nat
  failed : Nat
  skipped : Nat
deriving DecidableEq, Repr

/-- Process one schedule entry for one agent.  A due, not-yet-sent memo
entry is dispatched (unless the hourly ceiling is reached) and recorded
with status `sent` or `failed`; an already-sent entry counts as skipped.
The rendered message text (`getNotificationTemplate`) is
locale-dependent presentation and not modelled; no claim concerns it. -/
def notifInnerStep (memoSend : String → String → String → MemoResult) (now : Nat)
    (agentId : Nat) (agent : AgentDoc) (days : Int) (sentTemplates : List String)
    (acc : Nat × Nat × Nat × Db) (entry : ScheduleEntry) : Nat × Nat × Nat × Db :=
  let sent := acc.1
  let failed := acc.2.1
  let skipped := acc.2.2.1
  let db := acc.2.2.2
  if (entry.daysAfterCreation : Int) ≤ days && !(sentTemplates.contains entry.template) then
    if MAX_SENDS_PER_HOUR ≤ sent then acc
    else if entry.channel == "onchain_memo" then
      let wallet := agent.walletAgentData.sourceWallet
      let claimUrl := s!"https://klik.cool/claim?wallet={wallet}"
      let res := memoSend wallet (toString agentId) claimUrl
      let db2 := insertNotif db
        { agentIdStr := some (toString agentId), walletAddress := some wallet,
          channel := some entry.channel, template := some entry.template,
          status := some (if res.success then "sent" else "failed"),
          txSignature := res.signature, errorMsg := res.errorMsg,
          scheduledDay := some entry.daysAfterCreation, actualDay := some days,
          sentAt := some now }
      if res.success then (sent + 1, failed, skipped, db2)
      else (sent, failed + 1, skipped, db2)
    else acc
  else if sentTemplates.contains entry.template then (sent, failed, skipped + 1, db)
  else acc

/-- Process one unclaimed agent: compute its day offset, snapshot its
already-sent templates, then walk the schedule.  A reached ceiling stops
further work (the loop breaks). -/
def notifOuterStep (memoSend : String → String → String → MemoResult) (now : Nat)
    (acc : Nat × Nat × Nat × Db) (e : Nat × AgentDoc) : Nat × Nat × Nat × Db :=
  if MAX_SENDS_PER_HOUR ≤ acc.1 then acc
  else
    let days := daysSinceCreation now e.2.createdAt
    let sentTemplates := getSentNotifications acc.2.2.2 e.1
    NOTIFICATION_SCHEDULE.foldl (notifInnerStep memoSend now e.1 e.2 days sentTemplates) acc

/-- Model of `processNotifications`: walk every unclaimed wallet agent,
dispatching due, undelivered schedule entries up to the hourly ceiling.
`memoSend wallet agentId claimUrl` stands for the external
`sendClaimMemo` delivery channel. -/
def processNotifications (memoSend : String → String → String → MemoResult)
    (db : Db) (now : Nat) : NotifSummary × Db :=
  let unclaimedAgents := db.agents.filter (fun e =>
    e.2.isWalletAgent && e.2.walletAgentData.claimStatus == .UNCLAIMED)
  let res := unclaimedAgents.foldl (notifOuterStep memoSend now) (0, 0, 0, db)
  ({ processed := unclaimedAgents.length, sent := res.1, failed := res.2.1,
     skipped := res.2.2.1 }, res.2.2.2)

/-! ## Whole-system operations

The operations that can touch the store after an opt-out, used to state
permanence of the blocklist. -/

/-- One system operation: any modelled endpoint call, a cron run, or the
creation of a new wallet agent. -/
inductive SysOp
  | checkOp (now : Nat) (ip : String) (wallet : Option String)
  | nonceOp (now : Nat) (wallet : String) (agentId : Nat) (freshNonce tsStr : String)
  | verifyOp (sigOk : String → String → String → Bool) (now : Nat) (ip : String)
      (req : VerifyReq)
  | optOutNonceOp (now : Nat) (wallet freshNonce tsStr : String)
  | optOutOp (sigOk : String → String → String → Bool) (now : Nat)
      (ip wallet signature nonce : String)
  | orphanRunOp (now : Nat)
  | notifRunOp (memoSend : String → String → String → MemoResult) (now : Nat)
  | createWalletAgentOp (id : Nat) (doc : AgentDoc)

/-- Apply one system operation to the store and cache, discarding the
response.  `createWalletAgentOp` is modelled from the spec: the service
creating a Subject for a wallet is not part of these sources; per the
spec it inserts a new agent document and touches nothing else. -/
def applySysOp (st : Db × RedisState) : SysOp → Db × RedisState
  | .checkOp now ip wallet => ((claimCheck st.1 now ip wallet).2, st.2)
  | .nonceOp now wallet agentId freshNonce tsStr =>
    (st.1, (claimNonceHandler st.1 st.2 now wallet agentId freshNonce tsStr).2)
  | .verifyOp sigOk now ip req =>
    let (_, db, r) := claimVerify sigOk st.1 st.2 now ip req
    (db, r)
  | .optOutNonceOp now wallet freshNonce tsStr =>
    (st.1, (optOutNonceHandler st.1 st.2 now wallet freshNonce tsStr).2)
  | .optOutOp sigOk now ip wallet signature nonce =>
    let (_, db, r, _) := optOutVerify sigOk st.1 st.2 now ip wallet signature nonce
    (db, r)
  | .orphanRunOp now => ((processOrphanTransitions st.1 now).2, st.2)
  | .notifRunOp memoSend now => ((processNotifications memoSend st.1 now).2, st.2)
  | .createWalletAgentOp id doc => ({ st.1 with agents := st.1.agents ++ [(id, doc)] }, st.2)

/-- Apply a sequence of system operations. -/
def applySysOps (st : Db × RedisState) (ops : List SysOp) : Db × RedisState :=
  ops.foldl applySysOp st

/-- The wallet is on the permanent opt-out blocklist. -/
def optedOut (db : Db) (wallet : String) : Prop :=
  ∃ rec ∈ db.optOuts, rec.walletAddress = wallet

/-! ## Concrete fixtures

Closed instances used to exercise the theorems on explicit inputs. -/

/-- Fixture: a store holding no agent at all. -/
def emptyDb : Db := { agents := [] }

/-- Fixture: an empty cache. -/
def emptyRedis : RedisState := {}

/-- Fixture: a syntactically valid base-58 wallet address (the well-known
32-character system address used in the repository test suite). -/
def fixtureWallet : String := "11111111111111111111111111111112"

/-- Fixture: cache state holding one hundred prior attempts from one IP,
so that the next request is the 101st. -/
def abuseFixtureRedis : RedisState :=
  { counters := [("claim:abuse:ip:203.0.113.9", 100)] }

/-- Fixture: an unclaimed wallet agent for `fixtureWallet`, created at
epoch time zero with a 30-day claim deadline. -/
def fixtureAgent : AgentDoc :=
  { isWalletAgent := true
    walletAgentData :=
      { sourceWallet := "11111111111111111111111111111112"
        claimStatus := .UNCLAIMED
        claimDeadline := some 2592000000 }
    createdAt := 0
    name := "agent7" }

/-- Fixture: a `sent` claim-reminder record for agent 7 and a template. -/
def fixtureSentRec (t : String) : NotifDoc :=
  { agentIdStr := some "7", template := some t, status := some "sent" }

/-- Fixture: a store holding exactly the unclaimed fixture agent under
id 7. -/
def fixtureClaimDb : Db := { agents := [(7, fixtureAgent)] }

/-- Fixture: the fixture agent without a claim deadline. -/
def fixtureAgentND : AgentDoc :=
  { fixtureAgent with walletAgentData :=
      { fixtureAgent.walletAgentData with claimDeadline := none } }

/-- Fixture: a store holding exactly the deadline-free fixture agent. -/
def fixtureClaimDbND : Db := { agents := [(7, fixtureAgentND)] }

/-- Fixture: a stored claim nonce. -/
def fixtureStoredNonce : StoredNonce :=
  { nonce := "n1", timestamp := "t", message := "m" }

/-- Fixture: a cache holding the stored claim nonce for agent 7 and the
fixture wallet, issued at time zero. -/
def fixtureNonceRedis : RedisState :=
  redisSetNonce emptyRedis (claimNonceKey 7 fixtureWallet) fixtureStoredNonce 0 300

/-- Fixture: a store whose only content is a permanent opt-out record for
`fixtureWallet`. -/
def optedOutDb : Db :=
  { agents := [], optOuts := [{ walletAddress := "11111111111111111111111111111112",
                                optedOutAt := 0 }] }

/-- Fixture: the store for the day-29 notification scenario — one
unclaimed agent with the first six schedule templates already sent. -/
def fixtureNotifDb : Db :=
  { agents := [(7, fixtureAgent)]
    notifications :=
      [fixtureSentRec "AGENT_CREATED", fixtureSentRec "WEEK_1_UPDATE",
       fixtureSentRec "HALFWAY_WARNING", fixtureSentRec "NINE_DAYS_LEFT",
       fixtureSentRec "FIVE_DAYS_LEFT", fixtureSentRec "TWO_DAYS_LEFT"] }

end Klik

namespace Klik

theorem floor_int_add_half (z : ℤ) : ⌊(z : ℚ) + 1/2⌋ = z := by
  rw [Int.floor_int_add]; norm_num

theorem jsToFixed6_lamports (n : ℕ) :
    jsToFixed 6 ((n : ℚ) * ESTIMATED_LAMPORTS_PER_TX / 1000000000) = (n : ℚ) / 100000 := by
  unfold jsToFixed ESTIMATED_LAMPORTS_PER_TX
  have h : (n : ℚ) * 10000 / 1000000000 * 10 ^ 6 + 1/2 = ((10 * n : ℤ) : ℚ) + 1/2 := by
    push_cast; ring
  rw [h, floor_int_add_half]
  push_cast; ring

/-- C9 (amended): `estimateBatchCost 0` returns zero lamports, zero SOL
and zero USD; the `totalLamports`, `totalSol` and `count` fields are
exactly linear (`cost(2n) = 2 * cost(n)`); the `totalUsd` field is the
linear dollar amount `n * 3/2000` rounded to cents by `toFixed(2)`, which
is why it is not exactly linear. -/
theorem C9_amended :
    (estimateBatchCost 0).totalLamports = 0 ∧ (estimateBatchCost 0).totalSol = 0 ∧
    (estimateBatchCost 0).totalUsd = 0 ∧
    (∀ n : Nat,
      (estimateBatchCost (2 * n)).totalLamports = 2 * (estimateBatchCost n).totalLamports ∧
      (estimateBatchCost (2 * n)).totalSol = 2 * (estimateBatchCost n).totalSol ∧
      (estimateBatchCost (2 * n)).count = 2 * (estimateBatchCost n).count) ∧
    (∀ n : Nat, (estimateBatchCost n).totalUsd = jsToFixed 2 ((n : ℚ) * 3 / 2000)) := by
  refine ⟨by norm_num [estimateBatchCost, ESTIMATED_LAMPORTS_PER_TX],
          by norm_num [estimateBatchCost, jsToFixed, ESTIMATED_LAMPORTS_PER_TX],
          by norm_num [estimateBatchCost, jsToFixed, ESTIMATED_LAMPORTS_PER_TX], ?_, ?_⟩
  · intro n
    refine ⟨?_, ?_, ?_⟩
    · simp only [estimateBatchCost]; push_cast; ring
    · show jsToFixed 6 _ = 2 * jsToFixed 6 _
      rw [jsToFixed6_lamports, jsToFixed6_lamports]
      push_cast; ring
    · simp only [estimateBatchCost]; push_cast; ring
  · intro n
    show jsToFixed 2 _ = _
    congr 1
    unfold ESTIMATED_LAMPORTS_PER_TX
    ring

/-- C9 (counterexample): the claim that every field of
`estimateBatchCost` doubles when the count doubles fails at count 3:
`estimateBatchCost 6` has `totalUsd = 0.01` while
`2 * (estimateBatchCost 3).totalUsd = 0`, because `totalUsd` is rounded
to cents. -/
theorem C9_counterexample : (estimateBatchCost 6).totalUsd ≠ 2 * (estimateBatchCost 3).totalUsd := by
  norm_num [estimateBatchCost, jsToFixed, ESTIMATED_LAMPORTS_PER_TX]

/-- C8: the abuse detector fails open — a missing/not-ready cache client
and a throwing cache client both let the request through — and it blocks
only when the store is reachable and either the per-IP hourly counter
exceeds 100 after the increment, or the request names a wallet whose
failure counter is at least 5. -/
theorem C8_fails_open :
    (∀ ip w, detectClaimAbuse .absent ip w = (.allowed, .absent)) ∧
    (∀ r ip w, detectClaimAbuse (.erroring r) ip w = (.allowed, .erroring r)) ∧
    (∀ r ip w, (detectClaimAbuse (.ready r) ip w).1 ≠ .allowed →
      (100 < (redisIncr r (abuseIpKey ip)).1 ∧
        (detectClaimAbuse (.ready r) ip w).1 = .blockedIp) ∨
      ((redisIncr r (abuseIpKey ip)).1 ≤ 100 ∧
        ∃ wa m, w = some wa ∧ 5 ≤ m ∧
          redisGetCounter (redisIncr r (abuseIpKey ip)).2 (abuseWalletKey wa) = some m ∧
          (detectClaimAbuse (.ready r) ip w).1 = .blockedWallet)) := by
  refine ⟨fun ip w => rfl, fun r ip w => rfl, ?_⟩
  intro r ip w
  simp only [detectClaimAbuse]
  rcases hincr : redisIncr r (abuseIpKey ip) with ⟨n, r1⟩
  try dsimp only
  have hcnt : ∀ k, redisGetCounter (if n = 1 then redisExpire r1 (abuseIpKey ip) 3600 else r1) k
      = redisGetCounter r1 k := by
    intro k; split <;> rfl
  by_cases h100 : 100 < n
  · simp only [if_pos h100]
    try dsimp only
    intro
    exact Or.inl ⟨h100, by trivial⟩
  · simp only [if_neg h100]
    rcases w with _ | wa
    · try dsimp only
      intro h; exact absurd rfl h
    · try dsimp only
      rw [hcnt]
      rcases hg : redisGetCounter r1 (abuseWalletKey wa) with _ | m
      · try dsimp only
        intro h; exact absurd rfl h
      · try dsimp only
        by_cases h5 : 5 ≤ m
        · simp only [if_pos h5]
          try dsimp only
          intro
          exact Or.inr ⟨by omega, wa, m, rfl, h5, hg, by trivial⟩
        · simp only [if_neg h5]
          try dsimp only
          intro h; exact absurd rfl h

/-- C4: `isValidSolanaAddress` returns false for a non-string value, the
empty string, any string of length outside 32 to 44, and any string
containing `0`, `O`, `I` or `l`; and it returns true only when the string
decodes to a 32-byte public key whose canonical base-58 re-encoding is
exactly the input.  The model is a total function, reflecting that the
source catches every exception and never throws. -/
theorem C4_isValidSolanaAddress :
    (isValidSolanaAddress none = false) ∧
    (isValidSolanaAddress (some "") = false) ∧
    (∀ s : String, s.length < 32 ∨ 44 < s.length → isValidSolanaAddress (some s) = false) ∧
    (∀ s : String, ∀ c ∈ s.toList, (c = '0' ∨ c = 'O' ∨ c = 'I' ∨ c = 'l') →
      isValidSolanaAddress (some s) = false) ∧
    (∀ s : String, isValidSolanaAddress (some s) = true →
      ∃ pk, publicKeyFromBase58 s = some pk ∧ pk.length = 32 ∧ b58Encode pk = s) := by
  refine ⟨rfl, rfl, ?_, ?_, ?_⟩
  · intro s hlen
    have hreg : matchesBase58Regex s = false := by
      simp only [matchesBase58Regex, Bool.and_eq_false_iff]
      left
      simp only [Bool.and_eq_false_iff, decide_eq_false_iff_not]
      omega
    simp [isValidSolanaAddress, hreg]
  · intro s c hc hbad
    have hchar : isBase58Char c = false := by
      rcases hbad with h | h | h | h <;> subst h <;> decide
    have hall : s.toList.all isBase58Char = false := by
      rw [Bool.eq_false_iff]
      intro hall
      rw [List.all_eq_true] at hall
      have := hall c hc
      rw [hchar] at this
      exact Bool.false_ne_true this
    have hreg : matchesBase58Regex s = false := by
      simp [matchesBase58Regex, hall]
      intro _ _
      exact ⟨c, hc, hchar⟩
    simp [isValidSolanaAddress, hreg]
  · intro s hvalid
    unfold isValidSolanaAddress at hvalid
    dsimp only at hvalid
    by_cases hemp : s.isEmpty
    · rw [if_pos hemp] at hvalid; simp at hvalid
    · rw [if_neg hemp] at hvalid
      by_cases hreg : matchesBase58Regex s
      · have hvalid2 : (match publicKeyFromBase58 s with
            | none => false
            | some pk => b58Encode pk == s) = true := by
          rw [hreg] at hvalid; simpa using hvalid
        rcases hpk : publicKeyFromBase58 s with _ | pk
        · rw [hpk] at hvalid2; simp at hvalid2
        · rw [hpk] at hvalid2
          dsimp only at hvalid2
          refine ⟨pk, rfl, ?_, by rwa [beq_iff_eq] at hvalid2⟩
          unfold publicKeyFromBase58 at hpk
          rcases hdec : b58Decode s with _ | bs
          · rw [hdec] at hpk; simp at hpk
          · rw [hdec] at hpk
            dsimp only at hpk
            by_cases hl : bs.length = 32
            · rw [if_pos hl] at hpk
              cases hpk
              exact hl
            · rw [if_neg hl] at hpk; simp at hpk
      · have hreg2 : matchesBase58Regex s = false := by simpa using hreg
        rw [hreg2] at hvalid
        simp at hvalid

/-- C6: for a subject created exactly 29 days ago and still UNCLAIMED,
with `sent` notification records already present for the templates of day
offsets 0, 7, 14, 21, 25 and 28, one `processNotifications` run sends
exactly one notification — the day-29 `FINAL_DAY` template — recording it
with status `sent`, and dispatches nothing else. -/
theorem C6_final_day_only (memoSend : String → String → String → MemoResult)
    (db : Db) (now : Nat) (id : Nat) (a : AgentDoc)
    (hagents : db.agents = [(id, a)])
    (ha1 : a.isWalletAgent = true)
    (ha2 : a.walletAgentData.claimStatus = .UNCLAIMED)
    (hage : now = a.createdAt + 29 * 86400000)
    (hsent : ∀ t ∈ ["AGENT_CREATED", "WEEK_1_UPDATE", "HALFWAY_WARNING",
      "NINE_DAYS_LEFT", "FIVE_DAYS_LEFT", "TWO_DAYS_LEFT"],
      (getSentNotifications db id).contains t = true)
    (hfinal : (getSentNotifications db id).contains "FINAL_DAY" = false)
    (hmemo : ∀ w aid u, (memoSend w aid u).success = true) :
    ∃ rec : NotifDoc,
      processNotifications memoSend db now =
        ({ processed := 1, sent := 1, failed := 0, skipped := 6 }, insertNotif db rec) ∧
      rec.template = some "FINAL_DAY" ∧
      rec.status = some "sent" ∧
      rec.scheduledDay = some 29 := by
  have hdays : daysSinceCreation now a.createdAt = 29 := by
    unfold daysSinceCreation
    rw [hage]
    have h1 : ((a.createdAt + 29 * 86400000 : Nat) : Int) - (a.createdAt : Int)
        = 2505600000 := by push_cast; ring
    rw [h1]
    decide
  have hs0 := hsent "AGENT_CREATED" (by simp)
  have hs1 := hsent "WEEK_1_UPDATE" (by simp)
  have hs2 := hsent "HALFWAY_WARNING" (by simp)
  have hs3 := hsent "NINE_DAYS_LEFT" (by simp)
  have hs4 := hsent "FIVE_DAYS_LEFT" (by simp)
  have hs5 := hsent "TWO_DAYS_LEFT" (by simp)
  simp only [processNotifications, hagents, List.filter, ha1, ha2]
  simp only [notifOuterStep, notifInnerStep, NOTIFICATION_SCHEDULE, List.foldl,
    hdays, hs0, hs1, hs2, hs3, hs4, hs5, hfinal, hmemo, MAX_SENDS_PER_HOUR]
  norm_num
  exact ⟨_, rfl, rfl, rfl, rfl⟩

theorem redisGetNonce_del (r : RedisState) (k : String) (t : Nat) :
    redisGetNonce (redisDelNonce r k) k t = none := by
  have h : (r.nonces.filter (fun e => e.1 != k)).find? (fun e => e.1 == k) = none := by
    rw [List.find?_eq_none]
    intro x hx
    have hx2 := (List.mem_filter.mp hx).2
    simpa using hx2
  simp only [redisGetNonce, redisDelNonce]
  rw [h]

theorem recordFailed_nonces (r : RedisState) (w : String) :
    (recordFailedClaimAttempt r w).nonces = r.nonces := by
  unfold recordFailedClaimAttempt redisIncr redisExpire
  dsimp only
  split <;> rfl

theorem redisGetNonce_nonces_eq (r1 r2 : RedisState) (k : String) (t : Nat)
    (h : r1.nonces = r2.nonces) : redisGetNonce r1 k t = redisGetNonce r2 k t := by
  unfold redisGetNonce
  rw [h]

theorem redisGetNonce_set_self (r : RedisState) (k : String) (v : StoredNonce)
    (now ttl t : Nat) :
    redisGetNonce (redisSetNonce r k v now ttl) k t =
      if t < now + ttl then some v else none := by
  simp only [redisGetNonce, redisSetNonce]
  rw [List.find?_cons_of_pos _ (by simp)]

theorem verifyPhase2_found (db : Db) (r : RedisState) (now : Nat) (ip : String)
    (req : VerifyReq) (x : Nat × AgentDoc)
    (hfind : db.agents.find? (fun e => e.1 == req.agentId && casClaimFilter req.wallet e.2)
      = some x) :
    ∃ k db2, verifyPhase2 db r now ip req =
      (.success k, db2, redisDelNonce r (claimNonceKey req.agentId req.wallet)) := by
  obtain ⟨i, a⟩ := x
  unfold verifyPhase2 agentFindOneAndUpdate
  rw [hfind]
  exact ⟨_, _, rfl⟩

theorem verifyPhase2_not_found (db : Db) (r : RedisState) (now : Nat) (ip : String)
    (req : VerifyReq)
    (hfind : db.agents.find? (fun e => e.1 == req.agentId && casClaimFilter req.wallet e.2)
      = none) :
    verifyPhase2 db r now ip req =
      (.alreadyClaimed, db, redisDelNonce r (claimNonceKey req.agentId req.wallet)) := by
  unfold verifyPhase2 agentFindOneAndUpdate
  rw [hfind]

theorem claimVerify_gates (sigOk : String → String → String → Bool) (db : Db)
    (r : RedisState) (now : Nat) (ip : String) (req : VerifyReq) (st : StoredNonce)
    (hwne : req.wallet ≠ "") (hsne : req.signature ≠ "") (hnne : req.nonce ≠ "")
    (hw : isValidSolanaAddress (some req.wallet) = true)
    (hget : redisGetNonce r (claimNonceKey req.agentId req.wallet) now = some st)
    (hmatch : st.nonce = req.nonce)
    (hsig : sigOk req.wallet st.message req.signature = true) :
    claimVerify sigOk db r now ip req = verifyPhase2 db r now ip req := by
  have h1 : (req.wallet == "" || req.signature == "" || req.nonce == "") = false := by
    simp [hwne, hsne, hnne]
  unfold claimVerify
  rw [h1, hget, hw]
  simp only [Bool.not_true, if_false, hmatch]
  rw [hsig]
  simp

theorem claimVerify_nonceExpired (sigOk : String → String → String → Bool) (db : Db)
    (r : RedisState) (now : Nat) (ip : String) (req : VerifyReq)
    (hwne : req.wallet ≠ "") (hsne : req.signature ≠ "") (hnne : req.nonce ≠ "")
    (hw : isValidSolanaAddress (some req.wallet) = true)
    (hget : redisGetNonce r (claimNonceKey req.agentId req.wallet) now = none) :
    claimVerify sigOk db r now ip req =
      (.nonceExpired, db, recordFailedClaimAttempt r req.wallet) := by
  have h1 : (req.wallet == "" || req.signature == "" || req.nonce == "") = false := by
    simp [hwne, hsne, hnne]
  unfold claimVerify
  rw [h1, hget, hw]
  simp

theorem claimVerify_nonceMismatch (sigOk : String → String → String → Bool) (db : Db)
    (r : RedisState) (now : Nat) (ip : String) (req : VerifyReq) (st : StoredNonce)
    (hwne : req.wallet ≠ "") (hsne : req.signature ≠ "") (hnne : req.nonce ≠ "")
    (hw : isValidSolanaAddress (some req.wallet) = true)
    (hget : redisGetNonce r (claimNonceKey req.agentId req.wallet) now = some st)
    (hmm : st.nonce ≠ req.nonce) :
    claimVerify sigOk db r now ip req =
      (.nonceMismatch, db, recordFailedClaimAttempt r req.wallet) := by
  have h1 : (req.wallet == "" || req.signature == "" || req.nonce == "") = false := by
    simp [hwne, hsne, hnne]
  have h2 : (st.nonce != req.nonce) = true := by simp [hmm]
  unfold claimVerify
  rw [h1, hget, hw]
  simp [h2]

theorem claimVerify_trichotomy (sigOk : String → String → String → Bool) (db : Db)
    (r : RedisState) (now : Nat) (ip : String) (req : VerifyReq) :
    (∃ k db2, claimVerify sigOk db r now ip req =
      (.success k, db2, redisDelNonce r (claimNonceKey req.agentId req.wallet))) ∨
    (claimVerify sigOk db r now ip req =
      (.alreadyClaimed, db, redisDelNonce r (claimNonceKey req.agentId req.wallet))) ∨
    ((claimVerify sigOk db r now ip req).2.2.nonces = r.nonces ∧
      ((claimVerify sigOk db r now ip req).1 = .missingFields ∨
       (claimVerify sigOk db r now ip req).1 = .invalidWallet ∨
       (claimVerify sigOk db r now ip req).1 = .nonceExpired ∨
       (claimVerify sigOk db r now ip req).1 = .nonceMismatch ∨
       (claimVerify sigOk db r now ip req).1 = .invalidSignature)) := by
  unfold claimVerify
  split
  · right; right; exact ⟨rfl, Or.inl rfl⟩
  · split
    · right; right; exact ⟨rfl, Or.inr (Or.inl rfl)⟩
    · split
      · right; right
        exact ⟨recordFailed_nonces r req.wallet, Or.inr (Or.inr (Or.inl rfl))⟩
      · split
        · right; right
          exact ⟨recordFailed_nonces r req.wallet, Or.inr (Or.inr (Or.inr (Or.inl rfl)))⟩
        · split
          · right; right
            exact ⟨recordFailed_nonces r req.wallet,
              Or.inr (Or.inr (Or.inr (Or.inr rfl)))⟩
          · rcases hfind : db.agents.find?
                (fun e => e.1 == req.agentId && casClaimFilter req.wallet e.2) with _ | x
            · right; left
              exact verifyPhase2_not_found db r now ip req hfind
            · left
              exact verifyPhase2_found db r now ip req x hfind

theorem claimVerify_invalidSignature (sigOk : String → String → String → Bool) (db : Db)
    (r : RedisState) (now : Nat) (ip : String) (req : VerifyReq) (st : StoredNonce)
    (hwne : req.wallet ≠ "") (hsne : req.signature ≠ "") (hnne : req.nonce ≠ "")
    (hw : isValidSolanaAddress (some req.wallet) = true)
    (hget : redisGetNonce r (claimNonceKey req.agentId req.wallet) now = some st)
    (hmatch : st.nonce = req.nonce)
    (hsig : sigOk req.wallet st.message req.signature = false) :
    claimVerify sigOk db r now ip req =
      (.invalidSignature,
       insertClaimLog db
         { walletAddress := some req.wallet, agentId := some req.agentId,
           action := "CLAIM_FAILED", reason := some "INVALID_SIGNATURE",
           ip := some ip, timestamp := now },
       recordFailedClaimAttempt r req.wallet) := by
  have h1 : (req.wallet == "" || req.signature == "" || req.nonce == "") = false := by
    simp [hwne, hsne, hnne]
  unfold claimVerify
  rw [h1, hget, hw]
  simp only [Bool.not_true, if_false, hmatch]
  rw [hsig]
  simp

/-- C2: a claim nonce is single-use.  A verify call that successfully
claims the subject deletes the stored nonce for `(agentId, wallet)`, so
an identical second verify call returns `NONCE_EXPIRED`; and whenever the
stored nonce differs from the supplied one (for instance after a new
nonce was issued), verify returns `NONCE_MISMATCH`. -/
theorem C2_nonce_single_use
    (sigOk sigOk2 : String → String → String → Bool) (db : Db) (r : RedisState)
    (now now2 : Nat) (ip : String) (id : Nat) (w s s2 n : String) (st : StoredNonce)
    (hw : isValidSolanaAddress (some w) = true)
    (hs : s ≠ "") (hn : n ≠ "") (hs2 : s2 ≠ "")
    (hget : redisGetNonce r (claimNonceKey id w) now = some st)
    (hmatch : st.nonce = n)
    (hsig : sigOk w st.message s = true)
    (hagent : (db.agents.find? (fun e => e.1 == id && casClaimFilter w e.2)).isSome) :
    (∃ k, (claimVerify sigOk db r now ip ⟨w, id, s, n⟩).1 = .success k) ∧
    (∀ t, redisGetNonce (claimVerify sigOk db r now ip ⟨w, id, s, n⟩).2.2
      (claimNonceKey id w) t = none) ∧
    ((claimVerify sigOk2 (claimVerify sigOk db r now ip ⟨w, id, s, n⟩).2.1
        (claimVerify sigOk db r now ip ⟨w, id, s, n⟩).2.2 now2 ip ⟨w, id, s2, n⟩).1
      = .nonceExpired) ∧
    (∀ (st2 : StoredNonce) (n2 s3 : String),
      redisGetNonce r (claimNonceKey id w) now = some st2 → st2.nonce ≠ n2 →
      s3 ≠ "" → n2 ≠ "" →
      (claimVerify sigOk db r now ip ⟨w, id, s3, n2⟩).1 = .nonceMismatch) := by
  have hwne : w ≠ "" := by
    intro h
    rw [h] at hw
    exact absurd hw (by decide)
  obtain ⟨x, hfind⟩ := Option.isSome_iff_exists.mp hagent
  have hgates := claimVerify_gates sigOk db r now ip ⟨w, id, s, n⟩ st hwne hs hn hw hget
    hmatch hsig
  obtain ⟨k, db2, hp2⟩ := verifyPhase2_found db r now ip ⟨w, id, s, n⟩ x hfind
  rw [hgates, hp2]
  refine ⟨⟨k, rfl⟩, fun t => redisGetNonce_del r _ t, ?_, ?_⟩
  · rw [claimVerify_nonceExpired sigOk2 db2 (redisDelNonce r (claimNonceKey id w)) now2 ip
      ⟨w, id, s2, n⟩ hwne hs2 hn hw (redisGetNonce_del r _ now2)]
  · intro st2 n2 s3 hget2 hmm hs3 hn2
    rw [hget] at hget2
    cases hget2
    rw [claimVerify_nonceMismatch sigOk db r now ip ⟨w, id, s3, n2⟩ st hwne hs3 hn2 hw hget hmm]

/-- C10: when verify finds a matching unexpired nonce but the ed25519
check fails, the response is `INVALID_SIGNATURE` and the stored nonce
entries are left unchanged, so a later verify with a correct signature
inside the 300-second TTL still succeeds; and in general every response
other than success and `ALREADY_CLAIMED` leaves the nonce store
untouched. -/
theorem C10_invalid_signature_preserves_nonce
    (sigOkBad sigOkGood : String → String → String → Bool) (db : Db) (r : RedisState)
    (t0 t1 t2 : Nat) (ip : String) (id : Nat) (w s1 s2 fn ts : String) (a : AgentDoc)
    (hagents : db.agents = [(id, a)])
    (hw : isValidSolanaAddress (some w) = true)
    (hs1 : s1 ≠ "") (hs2 : s2 ≠ "") (hfn : fn ≠ "")
    (ha1 : a.isWalletAgent = true)
    (ha2 : a.walletAgentData.claimStatus = .UNCLAIMED)
    (ha3 : a.walletAgentData.sourceWallet = w)
    (ha4 : a.walletAgentData.claimDeadline = none)
    (ht1 : t1 < t0 + NONCE_TTL_SECONDS) (ht2 : t2 < t0 + NONCE_TTL_SECONDS)
    (hbad : sigOkBad w (generateClaimMessage (toString id) w fn ts) s1 = false)
    (hgood : sigOkGood w (generateClaimMessage (toString id) w fn ts) s2 = true) :
    -- the three-step scenario: issue a nonce, fail a verify on a bad
    -- signature, then succeed with the same still-stored nonce
    (claimNonceHandler db r t0 w id fn ts).1
        = .ok fn (generateClaimMessage (toString id) w fn ts) ts ∧
    (claimVerify sigOkBad db (claimNonceHandler db r t0 w id fn ts).2 t1 ip
        ⟨w, id, s1, fn⟩).1 = .invalidSignature ∧
    (claimVerify sigOkBad db (claimNonceHandler db r t0 w id fn ts).2 t1 ip
        ⟨w, id, s1, fn⟩).2.2.nonces = (claimNonceHandler db r t0 w id fn ts).2.nonces ∧
    (∃ k, (claimVerify sigOkGood
        (claimVerify sigOkBad db (claimNonceHandler db r t0 w id fn ts).2 t1 ip
          ⟨w, id, s1, fn⟩).2.1
        (claimVerify sigOkBad db (claimNonceHandler db r t0 w id fn ts).2 t1 ip
          ⟨w, id, s1, fn⟩).2.2 t2 ip ⟨w, id, s2, fn⟩).1 = .success k) ∧
    (∀ (sigOk : String → String → String → Bool) (db0 : Db) (r0 : RedisState)
      (now0 : Nat) (ip0 : String) (req : VerifyReq),
      ((∀ k, (claimVerify sigOk db0 r0 now0 ip0 req).1 ≠ .success k) ∧
        (claimVerify sigOk db0 r0 now0 ip0 req).1 ≠ .alreadyClaimed) →
      (claimVerify sigOk db0 r0 now0 ip0 req).2.2.nonces = r0.nonces) := by
  have hwne : w ≠ "" := by
    intro h
    rw [h] at hw
    exact absurd hw (by decide)
  -- nonce issuance stores the message under the claim nonce key
  have hfind0 : db.agents.find? (fun e => e.1 == id && e.2.isWalletAgent &&
      e.2.walletAgentData.sourceWallet == w) = some (id, a) := by
    rw [hagents]
    simp [List.find?, ha1, ha3]
  have hissue : claimNonceHandler db r t0 w id fn ts =
      (.ok fn (generateClaimMessage (toString id) w fn ts) ts,
       redisSetNonce r (claimNonceKey id w)
         { nonce := fn, timestamp := ts,
           message := generateClaimMessage (toString id) w fn ts } t0 NONCE_TTL_SECONDS) := by
    have h1 : (w == "") = false := by simp [hwne]
    unfold claimNonceHandler
    rw [h1, hw, hfind0]
    simp [ha2, ha4]
  have hv : ∀ t, t < t0 + NONCE_TTL_SECONDS →
      redisGetNonce (claimNonceHandler db r t0 w id fn ts).2 (claimNonceKey id w) t =
        some { nonce := fn, timestamp := ts,
               message := generateClaimMessage (toString id) w fn ts } := by
    intro t ht
    rw [hissue]
    rw [redisGetNonce_set_self]
    rw [if_pos ht]
  have hbadrun := claimVerify_invalidSignature sigOkBad db
    (claimNonceHandler db r t0 w id fn ts).2 t1 ip ⟨w, id, s1, fn⟩ _
    hwne hs1 hfn hw (hv t1 ht1) rfl hbad
  refine ⟨by rw [hissue], by rw [hbadrun], ?_, ?_, ?_⟩
  · rw [hbadrun]
    exact recordFailed_nonces _ w
  · -- retry with a good signature succeeds
    rw [hbadrun]
    have hagents2 : (insertClaimLog db
        { walletAddress := some w, agentId := some id, action := "CLAIM_FAILED",
          reason := some "INVALID_SIGNATURE", ip := some ip, timestamp := t1 }).agents
        = db.agents := rfl
    have hfind2 : (insertClaimLog db
        { walletAddress := some w, agentId := some id, action := "CLAIM_FAILED",
          reason := some "INVALID_SIGNATURE", ip := some ip, timestamp := t1 }).agents.find?
        (fun e => e.1 == id && casClaimFilter w e.2) = some (id, a) := by
      rw [hagents2, hagents]
      simp [List.find?, casClaimFilter, ha1, ha2, ha3]
    have hget2 : redisGetNonce
        (recordFailedClaimAttempt (claimNonceHandler db r t0 w id fn ts).2 w)
        (claimNonceKey id w) t2 =
        some { nonce := fn, timestamp := ts,
               message := generateClaimMessage (toString id) w fn ts } := by
      rw [redisGetNonce_nonces_eq _ (claimNonceHandler db r t0 w id fn ts).2 _ _
        (recordFailed_nonces _ w)]
      exact hv t2 ht2
    rw [claimVerify_gates sigOkGood _ _ t2 ip ⟨w, id, s2, fn⟩ _ hwne hs2 hfn hw hget2 rfl hgood]
    obtain ⟨k, db2, hp2⟩ := verifyPhase2_found _
      (recordFailedClaimAttempt (claimNonceHandler db r t0 w id fn ts).2 w) t2 ip
      ⟨w, id, s2, fn⟩ (id, a) hfind2
    exact ⟨k, by rw [hp2]⟩
  · -- in general, every non-success, non-conflict response leaves the
    -- stored nonces untouched
    intro sigOk db0 r0 now0 ip0 req h
    rcases claimVerify_trichotomy sigOk db0 r0 now0 ip0 req with ⟨k, db2, heq⟩ | heq | ⟨hn, _⟩
    · exact absurd (by rw [heq]) (h.1 k)
    · exact absurd (by rw [heq]) h.2
    · exact hn

/-- C5 (amended): the opt-out verify handler needs no subject to exist —
given a valid nonce and signature it always succeeds and inserts the
permanent blocklist record — and its effect trace runs all destructive
deletions strictly before the blocklist insert; however pre-emptive
opt-out is blocked earlier, at nonce issuance (see the counterexample). -/
theorem C5_amended (sigOk : String → String → String → Bool) (db : Db) (r : RedisState)
    (now : Nat) (ip w sg nn : String) (st : StoredNonce)
    (hw : isValidSolanaAddress (some w) = true)
    (hsg : sg ≠ "") (hnn : nn ≠ "")
    (hget : redisGetNonce r (optOutNonceKey w) now = some st)
    (hmatch : st.nonce = nn)
    (hsig : sigOk w st.message sg = true) :
    (optOutVerify sigOk db r now ip w sg nn).1 = .success ∧
    (∃ rec ∈ (optOutVerify sigOk db r now ip w sg nn).2.1.optOuts,
      rec.walletAddress = w) ∧
    ((optOutVerify sigOk db r now ip w sg nn).2.2.2 =
      ((optOutVerify sigOk db r now ip w sg nn).2.2.2.filter (fun op => op.isDeletion)) ++
      [.insertOptOutRecord w, .deleteNonceKey (optOutNonceKey w), .insertAuditRow]) := by
  have hwne : w ≠ "" := by
    intro h
    rw [h] at hw
    exact absurd hw (by decide)
  have h1 : (w == "" || sg == "" || nn == "") = false := by simp [hwne, hsg, hnn]
  have h2 : (st.nonce != nn) = false := by simp [hmatch]
  unfold optOutVerify
  rw [h1, hget, hw]
  simp only [Bool.not_true, if_false, h2, hsig]
  rcases hfound : findAgentByWallet db w with _ | x
  · refine ⟨by simp, ?_, by simp [OptOutOp.isDeletion]⟩
    simp only
    refine ⟨{ walletAddress := w, optedOutAt := now }, ?_, rfl⟩
    simp [insertClaimLog]
  · obtain ⟨i, a⟩ := x
    refine ⟨by simp, ?_, by simp [OptOutOp.isDeletion]⟩
    simp only
    refine ⟨{ walletAddress := w, optedOutAt := now, agentId := some i,
              agentName := some a.name }, ?_, rfl⟩
    simp [insertClaimLog]

/-- C5 (counterexample): a wallet with no subject cannot complete an
opt-out pre-emptively: the opt-out nonce endpoint answers `NO_AGENT` for
a valid wallet with no agent, and without an issued nonce the opt-out
verify endpoint answers `NONCE_EXPIRED`. -/
theorem C5_counterexample :
    (optOutNonceHandler emptyDb emptyRedis 0 fixtureWallet "aabb"
      "2026-01-01T00:00:00.000Z").1 = .noAgent ∧
    (optOutVerify (fun _ _ _ => true) emptyDb emptyRedis 0 "203.0.113.9"
      fixtureWallet "sig" "aabb").1 = .nonceExpired := by
  constructor <;> decide

set_option maxRecDepth 8000 in
/-- C5 witness: opt-out verify succeeds for a wallet with no agent once a nonce exists. -/
theorem C5_witness :
    (optOutVerify (fun _ _ _ => true) emptyDb
        (redisSetNonce emptyRedis (optOutNonceKey fixtureWallet)
          { nonce := "aabb", timestamp := "t",
            message := generateOptOutMessage fixtureWallet "aabb" "t" } 0 300)
        5 "203.0.113.9" fixtureWallet "sig" "aabb").1 = .success :=
  (C5_amended (fun _ _ _ => true) emptyDb
    (redisSetNonce emptyRedis (optOutNonceKey fixtureWallet)
      { nonce := "aabb", timestamp := "t",
        message := generateOptOutMessage fixtureWallet "aabb" "t" } 0 300)
    5 "203.0.113.9" fixtureWallet "sig" "aabb"
    { nonce := "aabb", timestamp := "t",
      message := generateOptOutMessage fixtureWallet "aabb" "t" }
    (by decide) (by decide) (by decide) (by decide) rfl rfl).1

theorem insertClaimLog_optOuts (db : Db) (d : ClaimAuditDoc) :
    (insertClaimLog db d).optOuts = db.optOuts := rfl

theorem insertNotif_optOuts (db : Db) (d : NotifDoc) :
    (insertNotif db d).optOuts = db.optOuts := rfl

theorem agentUpdateWhere_optOuts (db : Db) (id : Nat) (c : AgentDoc → Bool)
    (f : AgentDoc → AgentDoc) : ((agentUpdateWhere db id c f).2).optOuts = db.optOuts := by
  unfold agentUpdateWhere
  split <;> rfl

theorem agentFindOneAndUpdate_optOuts (db : Db) (id : Nat) (c : AgentDoc → Bool)
    (f : AgentDoc → AgentDoc) :
    ((agentFindOneAndUpdate db id c f).2).optOuts = db.optOuts := by
  unfold agentFindOneAndUpdate
  split <;> rfl

theorem findOrCreateUser_optOuts (db : Db) (w : String) (now : Nat) :
    ((findOrCreateUser db w now).2).optOuts = db.optOuts := by
  unfold findOrCreateUser
  split <;> rfl

theorem verifySuccessPost_optOuts (db1 : Db) (r : RedisState) (now : Nat) (ip : String)
    (req : VerifyReq) : ((verifySuccessPost db1 r now ip req).2.1).optOuts = db1.optOuts := by
  simp only [verifySuccessPost]
  rw [insertClaimLog_optOuts]
  split
  · rw [agentUpdateWhere_optOuts, agentUpdateWhere_optOuts, findOrCreateUser_optOuts]
  · rw [agentUpdateWhere_optOuts, findOrCreateUser_optOuts]

theorem verifyPhase2_optOuts (db : Db) (r : RedisState) (now : Nat) (ip : String)
    (req : VerifyReq) : ((verifyPhase2 db r now ip req).2.1).optOuts = db.optOuts := by
  simp only [verifyPhase2]
  split
  · exact agentFindOneAndUpdate_optOuts db req.agentId _ _
  · rw [verifySuccessPost_optOuts, agentFindOneAndUpdate_optOuts]

theorem claimVerify_optOuts (sigOk : String → String → String → Bool) (db : Db)
    (r : RedisState) (now : Nat) (ip : String) (req : VerifyReq) :
    ((claimVerify sigOk db r now ip req).2.1).optOuts = db.optOuts := by
  unfold claimVerify
  split
  · rfl
  · split
    · rfl
    · split
      · rfl
      · split
        · rfl
        · split
          · rfl
          · exact verifyPhase2_optOuts db r now ip req

theorem claimCheck_optOuts (db : Db) (now : Nat) (ip : String) (wq : Option String) :
    ((claimCheck db now ip wq).2).optOuts = db.optOuts := by
  unfold claimCheck
  rcases wq with _ | w
  · rfl
  · dsimp only
    split
    · rfl
    · split
      · rfl
      · split
        · rfl
        · rfl

theorem optOutVerify_optOuts_mono (sigOk : String → String → String → Bool) (db : Db)
    (r : RedisState) (now : Nat) (ip w sg nn : String) (rec : OptOutDoc)
    (h : rec ∈ db.optOuts) :
    rec ∈ ((optOutVerify sigOk db r now ip w sg nn).2.1).optOuts := by
  unfold optOutVerify
  split
  · exact h
  · split
    · exact h
    · split
      · exact h
      · split
        · exact h
        · split
          · exact h
          · split
            · show rec ∈ (_ ++ _ : List OptOutDoc)
              exact List.mem_append_left _ h
            · show rec ∈ (_ ++ _ : List OptOutDoc)
              exact List.mem_append_left _ h

theorem notifyWatcherStep_optOuts (now aid : Nat) (nm : String) (db : Db)
    (w : WatcherDoc) : (notifyWatcherStep now aid nm db w).optOuts = db.optOuts := rfl

theorem foldl_optOuts_eq {α : Type} (f : Db → α → Db)
    (h : ∀ db a, (f db a).optOuts = db.optOuts) :
    ∀ (l : List α) (db : Db), (l.foldl f db).optOuts = db.optOuts := by
  intro l
  induction l with
  | nil => intro db; rfl
  | cons x xs ih =>
    intro db
    rw [List.foldl_cons, ih, h]

theorem orphanStep_optOuts (now : Nat) (acc : OrphanSummary × Db) (e : Nat × AgentDoc) :
    ((orphanStep now acc e).2).optOuts = acc.2.optOuts := by
  simp only [orphanStep]
  split
  · dsimp only
    rw [foldl_optOuts_eq _ (notifyWatcherStep_optOuts now e.1 e.2.name),
      insertClaimLog_optOuts, agentUpdateWhere_optOuts]
  · exact agentUpdateWhere_optOuts acc.2 e.1 _ _

theorem foldl_orphanStep_optOuts (now : Nat) (l : List (Nat × AgentDoc)) :
    ∀ acc : OrphanSummary × Db,
      ((l.foldl (orphanStep now) acc).2).optOuts = acc.2.optOuts := by
  induction l with
  | nil => intro acc; rfl
  | cons x xs ih =>
    intro acc
    rw [List.foldl_cons, ih, orphanStep_optOuts]

theorem processOrphanTransitions_optOuts (db : Db) (now : Nat) :
    ((processOrphanTransitions db now).2).optOuts = db.optOuts := by
  simp only [processOrphanTransitions]
  exact foldl_orphanStep_optOuts now _ _

theorem notifInnerStep_optOuts (m : String → String → String → MemoResult) (now aid : Nat)
    (ag : AgentDoc) (days : Int) (st : List String) (acc : Nat × Nat × Nat × Db)
    (entry : ScheduleEntry) :
    ((notifInnerStep m now aid ag days st acc entry).2.2.2).optOuts
      = acc.2.2.2.optOuts := by
  simp only [notifInnerStep]
  split
  · split
    · rfl
    · split
      · split <;> rfl
      · rfl
  · split
    · rfl
    · rfl

theorem foldl_notifInnerStep_optOuts (m : String → String → String → MemoResult)
    (now aid : Nat) (ag : AgentDoc) (days : Int) (st : List String)
    (l : List ScheduleEntry) :
    ∀ acc : Nat × Nat × Nat × Db,
      ((l.foldl (notifInnerStep m now aid ag days st) acc).2.2.2).optOuts
        = acc.2.2.2.optOuts := by
  induction l with
  | nil => intro acc; rfl
  | cons x xs ih =>
    intro acc
    rw [List.foldl_cons, ih, notifInnerStep_optOuts]

theorem notifOuterStep_optOuts (m : String → String → String → MemoResult) (now : Nat)
    (acc : Nat × Nat × Nat × Db) (e : Nat × AgentDoc) :
    ((notifOuterStep m now acc e).2.2.2).optOuts = acc.2.2.2.optOuts := by
  simp only [notifOuterStep]
  split
  · rfl
  · exact foldl_notifInnerStep_optOuts m now e.1 e.2 _ _ _ acc

theorem foldl_notifOuterStep_optOuts (m : String → String → String → MemoResult)
    (now : Nat) (l : List (Nat × AgentDoc)) :
    ∀ acc : Nat × Nat × Nat × Db,
      ((l.foldl (notifOuterStep m now) acc).2.2.2).optOuts = acc.2.2.2.optOuts := by
  induction l with
  | nil => intro acc; rfl
  | cons x xs ih =>
    intro acc
    rw [List.foldl_cons, ih, notifOuterStep_optOuts]

theorem processNotifications_optOuts (m : String → String → String → MemoResult)
    (db : Db) (now : Nat) :
    ((processNotifications m db now).2).optOuts = db.optOuts := by
  simp only [processNotifications]
  exact foldl_notifOuterStep_optOuts m now _ _

theorem applySysOp_optedOut (w : String) (st : Db × RedisState) (op : SysOp)
    (h : optedOut st.1 w) : optedOut (applySysOp st op).1 w := by
  obtain ⟨rec, hmem, hrec⟩ := h
  cases op with
  | checkOp now ip wq =>
    exact ⟨rec, by rw [applySysOp, claimCheck_optOuts]; exact hmem, hrec⟩
  | nonceOp now wq aid fn ts => exact ⟨rec, hmem, hrec⟩
  | verifyOp sigOk now ip req =>
    refine ⟨rec, ?_, hrec⟩
    show rec ∈ ((claimVerify sigOk st.1 st.2 now ip req).2.1).optOuts
    rw [claimVerify_optOuts]
    exact hmem
  | optOutNonceOp now wq fn ts => exact ⟨rec, hmem, hrec⟩
  | optOutOp sigOk now ip wq sg nn =>
    refine ⟨rec, ?_, hrec⟩
    show rec ∈ ((optOutVerify sigOk st.1 st.2 now ip wq sg nn).2.1).optOuts
    exact optOutVerify_optOuts_mono sigOk st.1 st.2 now ip wq sg nn rec hmem
  | orphanRunOp now =>
    exact ⟨rec, by rw [applySysOp, processOrphanTransitions_optOuts]; exact hmem, hrec⟩
  | notifRunOp m now =>
    exact ⟨rec, by rw [applySysOp, processNotifications_optOuts]; exact hmem, hrec⟩
  | createWalletAgentOp id doc => exact ⟨rec, hmem, hrec⟩

theorem applySysOps_optedOut (w : String) (ops : List SysOp) :
    ∀ st : Db × RedisState, optedOut st.1 w → optedOut (applySysOps st ops).1 w := by
  induction ops with
  | nil => intro st h; exact h
  | cons op rest ih =>
    intro st h
    exact ih (applySysOp st op) (applySysOp_optedOut w st op h)

/-- C3: opt-out is permanent.  A successful opt-out inserts the wallet
into the blocklist, and after any sequence of modelled system operations
— including the creation of a new subject for the wallet — the
eligibility check still short-circuits on the blocklist and returns
ineligible with reason `OPTED_OUT`. -/
theorem C3_optout_permanent :
    (∀ (sigOk : String → String → String → Bool) (db : Db) (r : RedisState)
       (now : Nat) (ip w sg nn : String),
      (optOutVerify sigOk db r now ip w sg nn).1 = .success →
      optedOut (optOutVerify sigOk db r now ip w sg nn).2.1 w) ∧
    (∀ (st : Db × RedisState) (ops : List SysOp) (w : String) (now2 : Nat) (ip2 : String),
      optedOut st.1 w → isValidSolanaAddress (some w) = true →
      (claimCheck (applySysOps st ops).1 now2 ip2 (some w)).1 = .ineligible "OPTED_OUT") := by
  constructor
  · intro sigOk db r now ip w sg nn
    unfold optOutVerify
    split
    · intro h; exact absurd h (by simp)
    · split
      · intro h; exact absurd h (by simp)
      · split
        · intro h; exact absurd h (by simp)
        · split
          · intro h; exact absurd h (by simp)
          · split
            · intro h; exact absurd h (by simp)
            · split
              · intro _
                exact ⟨_, List.mem_append_right _ (List.mem_singleton.mpr rfl), rfl⟩
              · intro _
                exact ⟨_, List.mem_append_right _ (List.mem_singleton.mpr rfl), rfl⟩
  · intro st ops w now2 ip2 hopt hvalid
    obtain ⟨rec, hmem, hrec⟩ := applySysOps_optedOut w ops st hopt
    have hsome : ((applySysOps st ops).1.optOuts.find?
        (fun o => o.walletAddress == w)).isSome := by
      rw [List.find?_isSome]
      exact ⟨rec, hmem, by simp [hrec]⟩
    obtain ⟨x, hx⟩ := Option.isSome_iff_exists.mp hsome
    unfold claimCheck
    simp [hvalid, hx]

theorem find?_eq_none_of_noMatch (db : Db) (id : Nat) (w : String)
    (h : noClaimMatch db id w) :
    db.agents.find? (fun e => e.1 == id && casClaimFilter w e.2) = none := by
  rw [List.find?_eq_none]
  intro x hx hcontra
  rw [Bool.and_eq_true] at hcontra
  have hkey : x.1 = id := by
    have := hcontra.1
    simpa using this
  have := h x hx hkey
  rw [this] at hcontra
  exact Bool.false_ne_true hcontra.2

theorem verifyPhase2_noMatch (db : Db) (r : RedisState) (now : Nat) (ip : String)
    (req : VerifyReq) (h : noClaimMatch db req.agentId req.wallet) :
    verifyPhase2 db r now ip req =
      (.alreadyClaimed, db, redisDelNonce r (claimNonceKey req.agentId req.wallet)) :=
  verifyPhase2_not_found db r now ip req
    (find?_eq_none_of_noMatch db req.agentId req.wallet h)

theorem mem_agentUpdateWhere (db : Db) (id : Nat) (c : AgentDoc → Bool)
    (f : AgentDoc → AgentDoc) (e2 : Nat × AgentDoc)
    (he2 : e2 ∈ ((agentUpdateWhere db id c f).2).agents) :
    ∃ e ∈ db.agents, e2.1 = e.1 ∧ (e2.2 = e.2 ∨ e2.2 = f e.2) := by
  unfold agentUpdateWhere at he2
  rcases hfind : db.agents.find? (fun e => e.1 == id && c e.2) with _ | x
  · rw [hfind] at he2
    exact ⟨e2, he2, rfl, Or.inl rfl⟩
  · rw [hfind] at he2
    dsimp only at he2
    obtain ⟨e, he, heq⟩ := List.mem_map.mp he2
    by_cases hc : (e.1 == id && c e.2) = true
    · rw [if_pos hc] at heq
      exact ⟨e, he, by rw [← heq], Or.inr (by rw [← heq])⟩
    · rw [if_neg hc] at heq
      exact ⟨e, he, by rw [← heq], Or.inl (by rw [← heq])⟩

theorem mem_agentFindOneAndUpdate (db : Db) (id : Nat) (c : AgentDoc → Bool)
    (f : AgentDoc → AgentDoc) (e2 : Nat × AgentDoc)
    (he2 : e2 ∈ ((agentFindOneAndUpdate db id c f).2).agents) :
    ∃ e ∈ db.agents, e2.1 = e.1 ∧
      ((e2.2 = e.2 ∧ (e.1 == id && c e.2) = false) ∨
       (e2.2 = f e.2 ∧ (e.1 == id && c e.2) = true)) := by
  unfold agentFindOneAndUpdate at he2
  rcases hfind : db.agents.find? (fun e => e.1 == id && c e.2) with _ | x
  · rw [hfind] at he2
    refine ⟨e2, he2, rfl, Or.inl ⟨rfl, ?_⟩⟩
    have := List.find?_eq_none.mp hfind e2 he2
    simpa using this
  · rw [hfind] at he2
    obtain ⟨i, a⟩ := x
    dsimp only at he2
    obtain ⟨e, he, heq⟩ := List.mem_map.mp he2
    by_cases hc : (e.1 == id && c e.2) = true
    · rw [if_pos hc] at heq
      exact ⟨e, he, by rw [← heq], Or.inr ⟨by rw [← heq], hc⟩⟩
    · rw [if_neg hc] at heq
      exact ⟨e, he, by rw [← heq], Or.inl ⟨by rw [← heq], by simpa using hc⟩⟩

theorem findOrCreateUser_agents (db : Db) (w : String) (now : Nat) :
    ((findOrCreateUser db w now).2).agents = db.agents := by
  unfold findOrCreateUser
  split <;> rfl

theorem casClaimFilter_applyClaimSet (now : Nat) (w sg nn w2 : String) (a : AgentDoc) :
    casClaimFilter w2 (applyClaimSet now w sg nn a) = false := by
  simp [casClaimFilter, applyClaimSet]

theorem mem_verifySuccessPost (db1 : Db) (r : RedisState) (now : Nat) (ip : String)
    (req : VerifyReq) (e2 : Nat × AgentDoc)
    (he2 : e2 ∈ ((verifySuccessPost db1 r now ip req).2.1).agents) :
    ∃ e ∈ db1.agents, e2.1 = e.1 ∧
      casClaimFilter req.wallet e2.2 = casClaimFilter req.wallet e.2 := by
  simp only [verifySuccessPost] at he2
  rw [show ∀ db d, (insertClaimLog db d).agents = db.agents from fun _ _ => rfl] at he2
  by_cases hrank : countClaimedExcept ((agentUpdateWhere (findOrCreateUser db1 req.wallet
      now).2 req.agentId (fun _ => true)
      (fun a => { a with userId := some (findOrCreateUser db1 req.wallet now).1 })).2)
      req.agentId + 1 ≤ 5000
  · rw [if_pos hrank] at he2
    obtain ⟨e3, he3, hk3, hv3⟩ := mem_agentUpdateWhere _ _ _ _ e2 he2
    obtain ⟨e4, he4, hk4, hv4⟩ := mem_agentUpdateWhere _ _ _ _ e3 he3
    rw [findOrCreateUser_agents] at he4
    refine ⟨e4, he4, by rw [hk3, hk4], ?_⟩
    have hf3 : casClaimFilter req.wallet e2.2 = casClaimFilter req.wallet e3.2 := by
      rcases hv3 with h | h <;> rw [h]
      rfl
    have hf4 : casClaimFilter req.wallet e3.2 = casClaimFilter req.wallet e4.2 := by
      rcases hv4 with h | h <;> rw [h]
      rfl
    rw [hf3, hf4]
  · rw [if_neg hrank] at he2
    obtain ⟨e4, he4, hk4, hv4⟩ := mem_agentUpdateWhere _ _ _ _ e2 he2
    rw [findOrCreateUser_agents] at he4
    refine ⟨e4, he4, hk4, ?_⟩
    rcases hv4 with h | h <;> rw [h]
    rfl

theorem agentFindOneAndUpdate_some (db : Db) (id : Nat) (c : AgentDoc → Bool)
    (f : AgentDoc → AgentDoc) (i : Nat) (a : AgentDoc)
    (hfind : db.agents.find? (fun e => e.1 == id && c e.2) = some (i, a)) :
    agentFindOneAndUpdate db id c f =
      (some (f a),
       { db with agents :=
           db.agents.map (fun e => if e.1 == id && c e.2 then (e.1, f e.2) else e) }) := by
  unfold agentFindOneAndUpdate
  rw [hfind]

theorem verifyPhase2_resp_cases (db : Db) (r : RedisState) (now : Nat) (ip : String)
    (req : VerifyReq) :
    (verifyPhase2 db r now ip req).1 = .alreadyClaimed ∨
    ∃ k, (verifyPhase2 db r now ip req).1 = .success k := by
  rcases hfind : db.agents.find?
      (fun e => e.1 == req.agentId && casClaimFilter req.wallet e.2) with _ | x
  · left
    rw [verifyPhase2_not_found db r now ip req hfind]
  · right
    obtain ⟨k, db2, h⟩ := verifyPhase2_found db r now ip req x hfind
    exact ⟨k, by rw [h]⟩

theorem verifyPhase2_alreadyClaimed_eq (db : Db) (r : RedisState) (now : Nat)
    (ip : String) (req : VerifyReq)
    (h : (verifyPhase2 db r now ip req).1 = .alreadyClaimed) :
    verifyPhase2 db r now ip req =
      (.alreadyClaimed, db, redisDelNonce r (claimNonceKey req.agentId req.wallet)) := by
  rcases hfind : db.agents.find?
      (fun e => e.1 == req.agentId && casClaimFilter req.wallet e.2) with _ | x
  · exact verifyPhase2_not_found db r now ip req hfind
  · obtain ⟨k, db2, heq⟩ := verifyPhase2_found db r now ip req x hfind
    rw [heq] at h
    exact absurd h (by simp)

theorem verifyPhase2_success_noMatch (db : Db) (r : RedisState) (now : Nat)
    (ip : String) (req : VerifyReq)
    (h : isSuccessResp (verifyPhase2 db r now ip req).1 = true) :
    noClaimMatch (verifyPhase2 db r now ip req).2.1 req.agentId req.wallet := by
  rcases hfind : db.agents.find?
      (fun e => e.1 == req.agentId && casClaimFilter req.wallet e.2) with _ | x
  · rw [verifyPhase2_not_found db r now ip req hfind] at h
    exact absurd h (by simp [isSuccessResp])
  · obtain ⟨i, a⟩ := x
    have heq : verifyPhase2 db r now ip req =
        verifySuccessPost
          { db with agents := db.agents.map (fun e =>
              if e.1 == req.agentId && casClaimFilter req.wallet e.2 then
                (e.1, applyClaimSet now req.wallet req.signature req.nonce e.2)
              else e) } r now ip req := by
      simp only [verifyPhase2,
        agentFindOneAndUpdate_some db req.agentId _ _ i a hfind]
    rw [heq]
    intro e2 he2 hkey
    obtain ⟨e1, he1, hk1, hfeq⟩ := mem_verifySuccessPost _ r now ip req e2 he2
    rw [hfeq]
    obtain ⟨e0, he0, heq0⟩ := List.mem_map.mp he1
    by_cases hc : (e0.1 == req.agentId && casClaimFilter req.wallet e0.2) = true
    · rw [if_pos hc] at heq0
      rw [← heq0]
      exact casClaimFilter_applyClaimSet now req.wallet req.signature req.nonce req.wallet e0.2
    · rw [if_neg hc] at heq0
      rw [← heq0]
      have hkey0 : e0.1 = req.agentId := by
        have h1 : e0.1 = e1.1 := by rw [← heq0]
        rw [h1, ← hk1, hkey]
      rcases hval : casClaimFilter req.wallet e0.2 with _ | _
      · rfl
      · exact absurd (by rw [Bool.and_eq_true]; exact ⟨by simpa using hkey0, hval⟩) hc

theorem runVerifyPhase2s_noMatch (now : Nat) (ip : String) (reqs : List VerifyReq) :
    ∀ (db : Db) (r : RedisState) (id : Nat) (w : String), noClaimMatch db id w →
      (∀ q ∈ reqs, q.agentId = id ∧ q.wallet = w) →
      ((runVerifyPhase2s now ip db r reqs).1 =
        reqs.map (fun _ => VerifyResp.alreadyClaimed)) := by
  induction reqs with
  | nil => intro db r id w _ _; rfl
  | cons q rest ih =>
    intro db r id w hnm hall
    have hq := hall q (List.mem_cons_self q rest)
    have hnmq : noClaimMatch db q.agentId q.wallet := by
      rw [hq.1, hq.2]; exact hnm
    simp only [runVerifyPhase2s, verifyPhase2_noMatch db r now ip q hnmq, List.map_cons]
    have := ih db (redisDelNonce r (claimNonceKey q.agentId q.wallet)) id w hnm
      (fun q2 hq2 => hall q2 (List.mem_cons_of_mem q hq2))
    rw [← this]

theorem runVerifyPhase2s_count (now : Nat) (ip : String) (reqs : List VerifyReq) :
    ∀ (db : Db) (r : RedisState) (id : Nat) (w : String),
      (∀ q ∈ reqs, q.agentId = id ∧ q.wallet = w) →
      ((runVerifyPhase2s now ip db r reqs).1.countP isSuccessResp ≤ 1 ∧
       ∀ resp ∈ (runVerifyPhase2s now ip db r reqs).1,
         isSuccessResp resp = true ∨ resp = .alreadyClaimed) := by
  induction reqs with
  | nil => intro db r id w _; exact ⟨by simp [runVerifyPhase2s], by simp [runVerifyPhase2s]⟩
  | cons q rest ih =>
    intro db r id w hall
    have hq := hall q (List.mem_cons_self q rest)
    have hrest : ∀ q2 ∈ rest, q2.agentId = id ∧ q2.wallet = w :=
      fun q2 hq2 => hall q2 (List.mem_cons_of_mem q hq2)
    simp only [runVerifyPhase2s, List.countP_cons]
    by_cases hs : isSuccessResp (verifyPhase2 db r now ip q).1 = true
    · have hnm := verifyPhase2_success_noMatch db r now ip q hs
      have hnm2 : noClaimMatch (verifyPhase2 db r now ip q).2.1 id w := by
        rw [← hq.1, ← hq.2]; exact hnm
      have hallAC := runVerifyPhase2s_noMatch now ip rest
        (verifyPhase2 db r now ip q).2.1 (verifyPhase2 db r now ip q).2.2 id w hnm2 hrest
      constructor
      · rw [hs, if_pos rfl]
        have hzero : ((runVerifyPhase2s now ip (verifyPhase2 db r now ip q).2.1
            (verifyPhase2 db r now ip q).2.2 rest).1).countP isSuccessResp = 0 := by
          rw [hallAC]
          rw [List.countP_eq_zero]
          intro resp hresp
          obtain ⟨_, _, hr⟩ := List.mem_map.mp hresp
          rw [← hr]
          simp [isSuccessResp]
        omega
      · intro resp hresp
        rcases List.mem_cons.mp hresp with h | h
        · left; rw [h]; exact hs
        · right
          rw [hallAC] at h
          obtain ⟨_, _, hr⟩ := List.mem_map.mp h
          rw [← hr]
    · constructor
      · rw [if_neg hs]
        have := (ih (verifyPhase2 db r now ip q).2.1 (verifyPhase2 db r now ip q).2.2
          id w hrest).1
        omega
      · intro resp hresp
        rcases List.mem_cons.mp hresp with h | h
        · rcases verifyPhase2_resp_cases db r now ip q with hac | ⟨k, hk⟩
          · right; rw [h, hac]
          · exfalso
            apply hs
            rw [hk]
            rfl
        · exact (ih (verifyPhase2 db r now ip q).2.1 (verifyPhase2 db r now ip q).2.2
            id w hrest).2 resp h

/-- C1: race safety of the claim transition.  The atomic conditional
update matches exactly when a document with the agent id passes the gate
`status = UNCLAIMED ∧ sourceWallet = wallet ∧ isWalletAgent`; when it
matches zero documents the handler replies `ALREADY_CLAIMED` and changes
no document; and across any serialized execution of N post-gate claim
sections for one subject and wallet, at most one receives success and
every other receives `ALREADY_CLAIMED`. -/
theorem C1_claim_race_safety :
    (∀ (db : Db) (id : Nat) (w sg nn : String) (now : Nat),
      ((agentFindOneAndUpdate db id (casClaimFilter w) (applyClaimSet now w sg nn)).1).isSome ↔
        ∃ e ∈ db.agents, e.1 = id ∧ casClaimFilter w e.2 = true) ∧
    (∀ (db : Db) (r : RedisState) (now : Nat) (ip : String) (req : VerifyReq),
      noClaimMatch db req.agentId req.wallet →
      verifyPhase2 db r now ip req =
        (.alreadyClaimed, db, redisDelNonce r (claimNonceKey req.agentId req.wallet))) ∧
    (∀ (reqs : List VerifyReq) (db : Db) (r : RedisState) (now : Nat) (ip : String)
       (id : Nat) (w : String),
      (∀ q ∈ reqs, q.agentId = id ∧ q.wallet = w) →
      ((runVerifyPhase2s now ip db r reqs).1.countP isSuccessResp ≤ 1 ∧
       ∀ resp ∈ (runVerifyPhase2s now ip db r reqs).1,
         isSuccessResp resp = true ∨ resp = .alreadyClaimed)) := by
  refine ⟨?_, fun db r now ip req h => verifyPhase2_noMatch db r now ip req h,
    fun reqs db r now ip id w hall => runVerifyPhase2s_count now ip reqs db r id w hall⟩
  intro db id w sg nn now
  unfold agentFindOneAndUpdate
  rcases hf : db.agents.find? (fun e => e.1 == id && casClaimFilter w e.2) with _ | x
  · simp only [hf]
    constructor
    · intro h; exact absurd h (by simp)
    · rintro ⟨e, he, hk, hc⟩
      have hnone := List.find?_eq_none.mp hf e he
      rw [Bool.and_eq_true] at hnone
      exact absurd ⟨by simpa using hk, hc⟩ hnone
  · obtain ⟨i, a⟩ := x
    simp only [hf]
    constructor
    · intro _
      have hmem := List.mem_of_find?_eq_some hf
      have hp := List.find?_some hf
      rw [Bool.and_eq_true] at hp
      exact ⟨(i, a), hmem, by simpa using hp.1, hp.2⟩
    · intro _
      simp

theorem orphanSet_idem (now : Nat) (a : AgentDoc) :
    orphanSet now (orphanSet now a) = orphanSet now a := rfl

theorem orphanEligible_unclaimed (now : Nat) (a : AgentDoc)
    (h : orphanEligible now a = true) : a.walletAgentData.claimStatus = .UNCLAIMED := by
  unfold orphanEligible at h
  rw [Bool.and_eq_true, Bool.and_eq_true] at h
  have := h.1.2
  simpa using this

theorem orphanEligible_orphanSet (now t : Nat) (a : AgentDoc) :
    orphanEligible t (orphanSet now a) = false := by
  simp [orphanEligible, orphanSet]

theorem notifyWatcherStep_agents (now aid : Nat) (nm : String) (db : Db)
    (w : WatcherDoc) : (notifyWatcherStep now aid nm db w).agents = db.agents := rfl

theorem foldl_agents_eq {α : Type} (f : Db → α → Db)
    (h : ∀ db a, (f db a).agents = db.agents) :
    ∀ (l : List α) (db : Db), (l.foldl f db).agents = db.agents := by
  intro l
  induction l with
  | nil => intro db; rfl
  | cons x xs ih =>
    intro db
    rw [List.foldl_cons, ih, h]

theorem agentUpdateWhere_fst_false (db : Db) (id : Nat) (c : AgentDoc → Bool)
    (f : AgentDoc → AgentDoc) (h : (agentUpdateWhere db id c f).1 = false) :
    db.agents.find? (fun e => e.1 == id && c e.2) = none := by
  unfold agentUpdateWhere at h
  rcases hf : db.agents.find? (fun e => e.1 == id && c e.2) with _ | x
  · exact hf
  · rw [hf] at h
    exact absurd h (by simp)

theorem mem_orphanStep (now : Nat) (acc : OrphanSummary × Db) (x e2 : Nat × AgentDoc)
    (he2 : e2 ∈ ((orphanStep now acc x).2).agents) :
    ∃ e0 ∈ acc.2.agents, e2.1 = e0.1 ∧ (e2.2 = e0.2 ∨ e2.2 = orphanSet now e0.2) := by
  simp only [orphanStep] at he2
  split at he2
  · dsimp only at he2
    rw [foldl_agents_eq _ (notifyWatcherStep_agents now x.1 x.2.name)] at he2
    exact mem_agentUpdateWhere acc.2 x.1 _ _ e2 he2
  · exact mem_agentUpdateWhere acc.2 x.1 _ _ e2 he2

theorem mem_foldl_orphanStep (now : Nat) (l : List (Nat × AgentDoc)) :
    ∀ (acc : OrphanSummary × Db) (e2 : Nat × AgentDoc),
      e2 ∈ ((l.foldl (orphanStep now) acc).2).agents →
      ∃ e0 ∈ acc.2.agents, e2.1 = e0.1 ∧ (e2.2 = e0.2 ∨ e2.2 = orphanSet now e0.2) := by
  induction l with
  | nil => intro acc e2 he2; exact ⟨e2, he2, rfl, Or.inl rfl⟩
  | cons x xs ih =>
    intro acc e2 he2
    rw [List.foldl_cons] at he2
    obtain ⟨e1, he1, hk1, hv1⟩ := ih (orphanStep now acc x) e2 he2
    obtain ⟨e0, he0, hk0, hv0⟩ := mem_orphanStep now acc x e1 he1
    refine ⟨e0, he0, by rw [hk1, hk0], ?_⟩
    rcases hv1 with h1 | h1 <;> rcases hv0 with h0 | h0
    · exact Or.inl (by rw [h1, h0])
    · exact Or.inr (by rw [h1, h0])
    · exact Or.inr (by rw [h1, h0])
    · exact Or.inr (by rw [h1, h0, orphanSet_idem])

theorem orphanStep_key_done (now : Nat) (acc : OrphanSummary × Db) (x : Nat × AgentDoc)
    (k : Nat) (hk : x.1 = k) :
    ∀ e2 ∈ ((orphanStep now acc x).2).agents, e2.1 = k →
      e2.2.walletAgentData.claimStatus ≠ .UNCLAIMED := by
  intro e2 he2 hkey
  simp only [orphanStep] at he2
  split at he2
  · dsimp only at he2
    rw [foldl_agents_eq _ (notifyWatcherStep_agents now x.1 x.2.name)] at he2
    intro hun
    unfold agentUpdateWhere at he2
    rcases hf : acc.2.agents.find?
        (fun e => e.1 == x.1 && (e.2.walletAgentData.claimStatus == ClaimStatus.UNCLAIMED))
        with _ | y
    · rw [hf] at he2
      have hnone := List.find?_eq_none.mp hf e2 he2
      rw [Bool.and_eq_true] at hnone
      exact hnone ⟨by simp [hkey, hk], by simp [hun]⟩
    · rw [hf] at he2
      dsimp only at he2
      obtain ⟨e3, he3, heq3⟩ := List.mem_map.mp he2
      by_cases hc : (e3.1 == x.1 &&
          (e3.2.walletAgentData.claimStatus == ClaimStatus.UNCLAIMED)) = true
      · rw [if_pos hc] at heq3
        have h22 : e2.2 = orphanSet now e3.2 := by rw [← heq3]
        rw [h22] at hun
        exact absurd hun (by simp [orphanSet])
      · rw [if_neg hc] at heq3
        have h22 : e2.2 = e3.2 := by rw [← heq3]
        have h21 : e2.1 = e3.1 := by rw [← heq3]
        apply hc
        rw [Bool.and_eq_true]
        constructor
        · have hx : e3.1 = x.1 := by rw [← h21, hkey, ← hk]
          simpa using hx
        · rw [← h22, hun]
          simp
  · rename_i hupd
    dsimp only at he2
    have hupd2 : (agentUpdateWhere acc.2 x.1
        (fun a => a.walletAgentData.claimStatus == ClaimStatus.UNCLAIMED)
        (orphanSet now)).1 = false := by
      simpa using hupd
    have hnone := agentUpdateWhere_fst_false acc.2 x.1 _ _ hupd2
    have heq2 : (agentUpdateWhere acc.2 x.1
        (fun a => a.walletAgentData.claimStatus == ClaimStatus.UNCLAIMED)
        (orphanSet now)).2 = acc.2 := by
      unfold agentUpdateWhere
      rw [hnone]
    rw [heq2] at he2
    intro hun
    have hnm := List.find?_eq_none.mp hnone e2 he2
    rw [Bool.and_eq_true] at hnm
    exact hnm ⟨by simp [hkey, hk], by simp [hun]⟩

theorem orphanStep_key_preserve (now : Nat) (acc : OrphanSummary × Db)
    (x : Nat × AgentDoc) (k : Nat)
    (h : ∀ e ∈ acc.2.agents, e.1 = k → e.2.walletAgentData.claimStatus ≠ .UNCLAIMED) :
    ∀ e2 ∈ ((orphanStep now acc x).2).agents, e2.1 = k →
      e2.2.walletAgentData.claimStatus ≠ .UNCLAIMED := by
  intro e2 he2 hkey
  obtain ⟨e0, he0, hk0, hv0⟩ := mem_orphanStep now acc x e2 he2
  rcases hv0 with hv | hv
  · rw [hv]
    exact h e0 he0 (by rw [← hk0, hkey])
  · rw [hv]
    simp [orphanSet]

theorem foldl_orphan_key_done (now : Nat) (l : List (Nat × AgentDoc)) :
    ∀ (acc : OrphanSummary × Db) (k : Nat),
      ((∀ e ∈ acc.2.agents, e.1 = k → e.2.walletAgentData.claimStatus ≠ .UNCLAIMED) ∨
        ∃ x ∈ l, x.1 = k) →
      ∀ e2 ∈ ((l.foldl (orphanStep now) acc).2).agents, e2.1 = k →
        e2.2.walletAgentData.claimStatus ≠ .UNCLAIMED := by
  induction l with
  | nil =>
    intro acc k h e2 he2 hkey
    rcases h with h | ⟨x, hx, _⟩
    · exact h e2 he2 hkey
    · exact absurd hx (List.not_mem_nil x)
  | cons x xs ih =>
    intro acc k h e2 he2 hkey
    rw [List.foldl_cons] at he2
    refine ih (orphanStep now acc x) k ?_ e2 he2 hkey
    rcases h with h | ⟨x0, hx0, hxk⟩
    · exact Or.inl (orphanStep_key_preserve now acc x k h)
    · rcases List.mem_cons.mp hx0 with h0 | h0
      · exact Or.inl (orphanStep_key_done now acc x k (by rw [← h0, hxk]))
      · exact Or.inr ⟨x0, h0, hxk⟩

theorem nodup_key_eq {l : List (Nat × AgentDoc)} (h : (l.map Prod.fst).Nodup)
    {k : Nat} {a b : AgentDoc} (ha : (k, a) ∈ l) (hb : (k, b) ∈ l) : a = b := by
  induction l with
  | nil => exact absurd ha (List.not_mem_nil _)
  | cons x xs ih =>
    rw [List.map_cons, List.nodup_cons] at h
    rcases List.mem_cons.mp ha with ha1 | ha1 <;> rcases List.mem_cons.mp hb with hb1 | hb1
    · exact congrArg Prod.snd (ha1.trans hb1.symm)
    · exfalso
      apply h.1
      rw [← ha1]
      exact List.mem_map.mpr ⟨(k, b), hb1, rfl⟩
    · exfalso
      apply h.1
      rw [← hb1]
      exact List.mem_map.mpr ⟨(k, a), ha1, rfl⟩
    · exact ih h.2 ha1 hb1

theorem processOrphan_no_eligible (db : Db) (now : Nat) :
    ∀ e2 ∈ ((processOrphanTransitions db now).2).agents,
      orphanEligible now e2.2 = false := by
  intro e2 he2
  simp only [processOrphanTransitions] at he2
  rcases Bool.eq_false_or_eq_true (orphanEligible now e2.2) with h | h
  case inr => exact h
  case inl
  · exfalso
    obtain ⟨e0, he0, hk0, hv0⟩ :=
      mem_foldl_orphanStep now (db.agents.filter (fun e => orphanEligible now e.2)) _ e2 he2
    rcases hv0 with hv | hv
    · have helig0 : orphanEligible now e0.2 = true := by rw [← hv]; exact h
      have hmem : e0 ∈ db.agents.filter (fun e => orphanEligible now e.2) :=
        List.mem_filter.mpr ⟨he0, helig0⟩
      have hdone := foldl_orphan_key_done now
        (db.agents.filter (fun e => orphanEligible now e.2)) _ e0.1
        (Or.inr ⟨e0, hmem, rfl⟩) e2 he2 hk0
      exact hdone (by rw [hv]; exact orphanEligible_unclaimed now e0.2 helig0)
    · rw [hv] at h
      rw [orphanEligible_orphanSet] at h
      exact Bool.false_ne_true h

theorem processOrphan_noop (db : Db) (now : Nat)
    (h : ∀ e ∈ db.agents, orphanEligible now e.2 = false) :
    processOrphanTransitions db now =
      ({ processed := 0, transitioned := 0, notified := 0, errors := [] }, db) := by
  simp only [processOrphanTransitions]
  have hfil : db.agents.filter (fun e => orphanEligible now e.2) = [] := by
    rw [List.filter_eq_nil_iff]
    intro e he
    rw [h e he]
    simp
  rw [hfil]
  rfl

theorem processOrphan_transitions (db : Db) (now : Nat)
    (hnodup : (db.agents.map Prod.fst).Nodup) :
    ∀ e ∈ db.agents, orphanEligible now e.2 = true →
      ∀ e2 ∈ ((processOrphanTransitions db now).2).agents, e2.1 = e.1 →
        e2.2.walletAgentData.claimStatus = .ORPHANED := by
  intro e he helig e2 he2 hkey
  simp only [processOrphanTransitions] at he2
  obtain ⟨e0, he0, hk0, hv0⟩ :=
    mem_foldl_orphanStep now (db.agents.filter (fun e => orphanEligible now e.2)) _ e2 he2
  have hmem : e ∈ db.agents.filter (fun x => orphanEligible now x.2) :=
    List.mem_filter.mpr ⟨he, helig⟩
  have hdone := foldl_orphan_key_done now
    (db.agents.filter (fun x => orphanEligible now x.2)) _ e.1
    (Or.inr ⟨e, hmem, rfl⟩) e2 he2 hkey
  have hkey0 : e0.1 = e.1 := by rw [← hk0, hkey]
  have he0' : (e.1, e0.2) ∈ db.agents := by
    rw [← hkey0]
    exact he0
  have he' : (e.1, e.2) ∈ db.agents := he
  have hsame : e0.2 = e.2 := nodup_key_eq hnodup he0' he'
  rcases hv0 with hv | hv
  · exfalso
    apply hdone
    rw [hv, hsame]
    exact orphanEligible_unclaimed now e.2 helig
  · rw [hv]
    rfl

/-- C7: running `processOrphanTransitions` twice in succession with no
intervening claims transitions each UNCLAIMED-past-deadline subject
exactly once: after the first run every such subject is `ORPHANED`, and
the second run returns a zero summary and leaves the store — including
the watcher notifications — untouched. -/
theorem C7_orphan_idempotent (db : Db) (now : Nat)
    (hnodup : (db.agents.map Prod.fst).Nodup) :
    (processOrphanTransitions (processOrphanTransitions db now).2 now =
      ({ processed := 0, transitioned := 0, notified := 0, errors := [] },
       (processOrphanTransitions db now).2)) ∧
    (∀ e ∈ db.agents, orphanEligible now e.2 = true →
      ∀ e2 ∈ ((processOrphanTransitions db now).2).agents, e2.1 = e.1 →
        e2.2.walletAgentData.claimStatus = .ORPHANED) :=
  ⟨processOrphan_noop (processOrphanTransitions db now).2 now
      (processOrphan_no_eligible db now),
   processOrphan_transitions db now hnodup⟩

/-- C1 witness: two serialized claim attempts for agent 7 produce at most one success. -/
theorem C1_witness :
    (runVerifyPhase2s 5 "203.0.113.9" fixtureClaimDb emptyRedis
      [⟨fixtureWallet, 7, "s1", "n1"⟩, ⟨fixtureWallet, 7, "s2", "n1"⟩]).1.countP
      isSuccessResp ≤ 1 :=
  (C1_claim_race_safety.2.2
    [⟨fixtureWallet, 7, "s1", "n1"⟩, ⟨fixtureWallet, 7, "s2", "n1"⟩]
    fixtureClaimDb emptyRedis 5 "203.0.113.9" 7 fixtureWallet (by decide)).1

set_option maxRecDepth 8000 in
/-- C2 witness: a second identical verify after a successful claim gets `NONCE_EXPIRED`. -/
theorem C2_witness :
    (claimVerify (fun _ _ _ => true)
      (claimVerify (fun _ _ _ => true) fixtureClaimDb fixtureNonceRedis 5 "ip"
        ⟨fixtureWallet, 7, "sg", "n1"⟩).2.1
      (claimVerify (fun _ _ _ => true) fixtureClaimDb fixtureNonceRedis 5 "ip"
        ⟨fixtureWallet, 7, "sg", "n1"⟩).2.2 6 "ip"
      ⟨fixtureWallet, 7, "sg", "n1"⟩).1 = .nonceExpired :=
  (C2_nonce_single_use (fun _ _ _ => true) (fun _ _ _ => true) fixtureClaimDb
    fixtureNonceRedis 5 6 "ip" 7 fixtureWallet "sg" "sg" "n1" fixtureStoredNonce
    (by decide) (by decide) (by decide) (by decide) (by decide) rfl rfl
    (by decide)).2.2.1

set_option maxRecDepth 8000 in
/-- C3 witness: after an opt-out record exists and a new agent is created for the wallet, the check still answers `OPTED_OUT`. -/
theorem C3_witness :
    (claimCheck (applySysOps (optedOutDb, emptyRedis)
      [SysOp.createWalletAgentOp 9 fixtureAgent]).1 1 "203.0.113.9"
      (some fixtureWallet)).1 = .ineligible "OPTED_OUT" :=
  C3_optout_permanent.2 (optedOutDb, emptyRedis)
    [SysOp.createWalletAgentOp 9 fixtureAgent] fixtureWallet 1 "203.0.113.9"
    ⟨{ walletAddress := "11111111111111111111111111111112", optedOutAt := 0 },
      List.mem_singleton.mpr rfl, rfl⟩ (by decide)

/-- C4 witness: concrete rejected and accepted addresses. -/
theorem C4_witness :
    isValidSolanaAddress (some "abc123") = false ∧
    isValidSolanaAddress (some "0aTjJs756Urcsjs7ia8HYm3eiBNbBAHFAS7fLsSNVxus") = false ∧
    (∃ pk, publicKeyFromBase58 "11111111111111111111111111111112" = some pk ∧
      pk.length = 32 ∧ b58Encode pk = "11111111111111111111111111111112") :=
  ⟨C4_isValidSolanaAddress.2.2.1 "abc123" (Or.inl (by decide)),
   C4_isValidSolanaAddress.2.2.2.1 "0aTjJs756Urcsjs7ia8HYm3eiBNbBAHFAS7fLsSNVxus"
     '0' (by decide) (Or.inl rfl),
   C4_isValidSolanaAddress.2.2.2.2 "11111111111111111111111111111112" (by decide)⟩

/-- C6 witness: the concrete day-29 store yields summary processed 1, sent 1, failed 0, skipped 6. -/
theorem C6_witness :
    (processNotifications (fun _ _ _ => { success := true }) fixtureNotifDb
      2505600000).1 = { processed := 1, sent := 1, failed := 0, skipped := 6 } := by
  obtain ⟨rec, heq, -, -, -⟩ := C6_final_day_only (fun _ _ _ => { success := true })
    fixtureNotifDb 2505600000 7 fixtureAgent rfl rfl rfl (by decide) (by decide)
    (by decide) (fun _ _ _ => rfl)
  rw [heq]

/-- C7 witness: the second orphan run on the concrete store is a no-op. -/
theorem C7_witness :
    processOrphanTransitions (processOrphanTransitions fixtureClaimDb 2600000000).2
      2600000000 =
      ({ processed := 0, transitioned := 0, notified := 0, errors := [] },
       (processOrphanTransitions fixtureClaimDb 2600000000).2) :=
  (C7_orphan_idempotent fixtureClaimDb 2600000000 (by decide)).1

/-- C8 witness: the 101st request from one IP is blocked. -/
theorem C8_witness :
    (detectClaimAbuse (.ready abuseFixtureRedis) "203.0.113.9" none).1 = .blockedIp := by
  rcases C8_fails_open.2.2 abuseFixtureRedis "203.0.113.9" none (by decide) with
    ⟨-, h⟩ | ⟨-, wa, -, hw, -⟩
  · exact h
  · exact absurd hw (by simp)

/-- C10 witness: a bad-signature verify on a live nonce answers `INVALID_SIGNATURE`. -/
theorem C10_witness :
    (claimVerify (fun _ _ _ => false) fixtureClaimDbND
      (claimNonceHandler fixtureClaimDbND emptyRedis 0 fixtureWallet 7 "ffnn"
        "2026-01-01T00:00:00.000Z").2 1 "203.0.113.9"
      ⟨fixtureWallet, 7, "s1", "ffnn"⟩).1 = .invalidSignature :=
  (C10_invalid_signature_preserves_nonce (fun _ _ _ => false) (fun _ _ _ => true)
    fixtureClaimDbND emptyRedis 0 1 2 "203.0.113.9" 7 fixtureWallet "s1" "s2" "ffnn"
    "2026-01-01T00:00:00.000Z" fixtureAgentND rfl (by decide) (by decide) (by decide)
    (by decide) rfl rfl rfl rfl (by decide) (by decide) rfl rfl).2.1

end Klik
